import Mathlib

/-!
Shallow embedding of `src/bmp_utils.js` (node_bmp): a BMP encoder with five
depth-specific pixel packers, a header builder, and a palette writer.

Modelling conventions:
* A JS `Uint8Array` is the structure `U8`: a size and a byte function.
  Writing stores the value modulo 256 (ToUint8); out-of-bounds writes are
  ignored, out-of-bounds reads give 0 here (the encoders never rely on them).
* JS array reads `clArray[i]` may be out of bounds (index negative or past the
  end); they yield `undefined`. `jsGet` models this with `Option`.
  In arithmetic, `undefined << n` is 0 (ToInt32 of NaN), while an unshifted
  `undefined` addend makes the whole sum NaN, and a NaN stored into a
  `Uint8Array` becomes 0. `packByte1` reflects exactly this.
* JS `>>` converts to int32 and shifts arithmetically; `toInt32`/`Int.fdiv`
  model this exactly. JS `Math.round(x)` for nonnegative x is
  `floor(x + 1/2)`; for `width/8` this is `(width + 4) / 8` in Nat division,
  and for `width/2` it is `(width + 1) / 2`.
* The `switch` statements become if-chains with the same fall-through and
  `default` behaviour.
* The source file runs in strict mode. `fillColorData_16` and
  `fillColorData_24` begin with `k = FILE_HEADER_SIZE = 14 + IMG_HEADER_SIZE`,
  an assignment to a `const`, which throws a TypeError before any byte is
  written; both are therefore modelled as returning `JsError.constAssign`
  without touching the buffer. (`fillColorData_24` additionally references an
  undeclared identifier `bytes`, unreachable behind the throw.)
* `saveAsBMP` finally hands the buffer to `writeFile`; the file write is
  outside the model, so the embedding returns the finished buffer instead.
-/

/-- JS ToInt32: reduce modulo 2^32 into the signed 32-bit range. -/
def toInt32 (v : Nat) : Int :=
  if v % 4294967296 < 2147483648 then ((v % 4294967296 : Nat) : Int)
  else ((v % 4294967296 : Nat) : Int) - 4294967296

/-- JS `x & 255` on an int32 value: the low byte, as a Nat. -/
def and255 (x : Int) : Nat := (x % 256).toNat

/-- JS array read `clArray[i]`: `undefined` (none) when out of bounds. -/
def jsGet (cl : List Nat) (i : Int) : Option Nat :=
  if 0 ≤ i then cl.get? i.toNat else none

/-- JS array read coerced to a number by a shift or bitwise op: undefined becomes 0. -/
def jsGetD (cl : List Nat) (i : Int) : Nat := (jsGet cl i).getD 0

/-- Model of a JS `Uint8Array`: a fixed size and the byte at each index. -/
structure U8 where
  size : Nat
  data : Nat → Nat

/-- `new Uint8Array(n)`: zero-initialized buffer. -/
def U8.mk0 (n : Nat) : U8 := ⟨n, fun _ => 0⟩

/-- `buf[k] = v`: stores v mod 256; out-of-bounds writes are ignored. -/
def U8.set (b : U8) (k v : Nat) : U8 :=
  if k < b.size then ⟨b.size, fun j => if j = k then v % 256 else b.data j⟩ else b

/-- Read a byte; out of bounds gives 0. -/
def U8.get (b : U8) (j : Nat) : Nat := if j < b.size then b.data j else 0

/- Constants from the top of bmp_utils.js. -/

def FILE_HEADER_SIZE : Nat := 14
def IMG_HEADER_SIZE : Nat := 40
def B_CODE : Nat := 66
def M_CODE : Nat := 77
def PALETTE_BYTE_SIZE : Nat := 4
def PIX_1BIT : Nat := 8
def PIX_4BIT : Nat := 2
def DPI_200_PIX_PER_M : Nat := 7874

/-- Result record of `getPixelBytes`. -/
structure PixelGeom where
  pixelSize : Nat
  rowSizeBase : Nat
  deltaBase : Nat
deriving DecidableEq, Repr

/-- `getPixelBytes(width, height, encoding = 24)`: row size by depth
(`Math.round` for the 1-bit and 4-bit cases), then padding of each row up to
a multiple of 4. -/
def getPixelBytes (width height : Nat) (encoding : Nat := 24) : PixelGeom :=
  let rowSize0 : Nat :=
    if encoding = 1 then (width + 4) / 8
    else if encoding = 4 then (width + 1) / 2
    else if encoding = 8 then width
    else if encoding = 16 then 2 * width
    else if encoding = 24 then 3 * width
    else if encoding = 32 then 4 * width
    else 3 * width
  let delta := rowSize0 % 4
  let rowSizeBase := rowSize0
  let rowSize := (rowSize0 - delta) + (if delta > 0 then 4 else 0)
  { pixelSize := rowSize * height
    rowSizeBase := rowSizeBase
    deltaBase := rowSize - rowSizeBase }

/-- `getPaletteBytes(encoding)`. -/
def getPaletteBytes (encoding : Nat) : Nat :=
  if encoding = 1 then 2 * PALETTE_BYTE_SIZE
  else if encoding = 4 then 16 * PALETTE_BYTE_SIZE
  else if encoding = 8 then 256 * PALETTE_BYTE_SIZE
  else 0

/-- The four little-endian bytes produced by `split2bytes`. -/
structure Bytes4 where
  b0 : Nat
  b1 : Nat
  b2 : Nat
  b3 : Nat
deriving DecidableEq, Repr

/-- `split2bytes(val)`: `val >> 8` chains on the int32 value (arithmetic
shift = `Int.fdiv` by 256), each byte extracted with `& 255`. -/
def split2bytes (val : Nat) : Bytes4 :=
  let v := toInt32 val
  let byteSecond := Int.fdiv v 256
  let byteThird := Int.fdiv byteSecond 256
  let byteFourth := Int.fdiv byteThird 256
  ⟨and255 v, and255 byteSecond, and255 byteThird, and255 byteFourth⟩

/-- Result record of `createHeader`. -/
structure HeaderResult where
  bytes : U8
  rowSizeBase : Nat
  deltaBase : Nat

/-- `createHeader(width, height, encoding)`: allocates the file buffer and
writes the 54 header bytes at their fixed offsets. -/
def createHeader (width height encoding : Nat) : HeaderResult :=
  let g := getPixelBytes width height encoding
  let paletteSize := getPaletteBytes encoding
  let headerSize := FILE_HEADER_SIZE + IMG_HEADER_SIZE + paletteSize
  let fileSize := headerSize + g.pixelSize
  let f_byte := split2bytes fileSize
  let h_byte := split2bytes headerSize
  let width_byte := split2bytes width
  let height_byte := split2bytes height
  let resolution_byte := split2bytes DPI_200_PIX_PER_M
  let paletteItems : Nat :=
    if encoding = 1 then 2 else if encoding = 4 then 16 else if encoding = 8 then 256 else 0
  let palette_byte := split2bytes paletteItems
  let bytes := U8.mk0 fileSize
  let bytes := bytes.set 0 B_CODE
  let bytes := bytes.set 1 M_CODE
  let bytes := bytes.set 2 f_byte.b0
  let bytes := bytes.set 3 f_byte.b1
  let bytes := bytes.set 4 f_byte.b2
  let bytes := bytes.set 5 f_byte.b3
  let bytes := bytes.set 6 0
  let bytes := bytes.set 7 0
  let bytes := bytes.set 8 0
  let bytes := bytes.set 9 0
  let bytes := bytes.set 10 h_byte.b0
  let bytes := bytes.set 11 h_byte.b1
  let bytes := bytes.set 12 h_byte.b2
  let bytes := bytes.set 13 h_byte.b3
  let bytes := bytes.set 14 IMG_HEADER_SIZE
  let bytes := bytes.set 15 0
  let bytes := bytes.set 16 0
  let bytes := bytes.set 17 0
  let bytes := bytes.set 18 width_byte.b0
  let bytes := bytes.set 19 width_byte.b1
  let bytes := bytes.set 20 width_byte.b2
  let bytes := bytes.set 21 width_byte.b3
  let bytes := bytes.set 22 height_byte.b0
  let bytes := bytes.set 23 height_byte.b1
  let bytes := bytes.set 24 height_byte.b2
  let bytes := bytes.set 25 height_byte.b3
  let bytes := bytes.set 26 1
  let bytes := bytes.set 27 0
  let bytes := bytes.set 28 encoding
  let bytes := bytes.set 29 0
  let bytes := bytes.set 30 0
  let bytes := bytes.set 31 0
  let bytes := bytes.set 32 0
  let bytes := bytes.set 33 0
  let bytes := bytes.set 34 0
  let bytes := bytes.set 35 0
  let bytes := bytes.set 36 0
  let bytes := bytes.set 37 0
  let bytes := bytes.set 38 resolution_byte.b0
  let bytes := bytes.set 39 resolution_byte.b1
  let bytes := bytes.set 40 resolution_byte.b2
  let bytes := bytes.set 41 resolution_byte.b3
  let bytes := bytes.set 42 resolution_byte.b0
  let bytes := bytes.set 43 resolution_byte.b1
  let bytes := bytes.set 44 resolution_byte.b2
  let bytes := bytes.set 45 resolution_byte.b3
  let bytes := bytes.set 46 palette_byte.b0
  let bytes := bytes.set 47 palette_byte.b1
  let bytes := bytes.set 48 0
  let bytes := bytes.set 49 0
  let bytes := bytes.set 50 0
  let bytes := bytes.set 51 0
  let bytes := bytes.set 52 0
  let bytes := bytes.set 53 0
  { bytes := bytes, rowSizeBase := g.rowSizeBase, deltaBase := g.deltaBase }

/-- One palette entry: an object with fields R, G, B. -/
structure RgbEntry where
  R : Nat
  G : Nat
  B : Nat
deriving DecidableEq, Repr

/-- Loop body of `fillPalette`: per entry write R, G, B, 0 and advance k by 4. -/
def fillPaletteGo : U8 → Nat → List RgbEntry → U8
  | b, _, [] => b
  | b, k, p :: rest =>
      fillPaletteGo ((((b.set k p.R).set (k + 1) p.G).set (k + 2) p.B).set (k + 3) 0) (k + 4) rest

/-- `fillPalette(bytes, palette)`: writes entries starting at offset 54. -/
def fillPalette (bytes : U8) (palette : List RgbEntry) : U8 :=
  fillPaletteGo bytes (FILE_HEADER_SIZE + IMG_HEADER_SIZE) palette

/-!
The three indexed-depth encoders share one loop skeleton, differing only in
the pixels-per-output-byte group size g, the iteration count, and how the
output byte is packed from the source reads. `fillGo` is that skeleton:
state (k, i_row, i0) = output cursor, bytes written in the current row, and
the row start index into the source; after `rowSize` bytes the cursor skips
`delta` padding bytes and i0 drops by `g * rowSize` (the `deltaRow` of the
source). Each concrete encoder below instantiates it with exactly the
constants of its JS function.
-/

/-- Shared loop skeleton of fillColorData_1 / _4 / _8 (n = iterations left). -/
def fillGo (pack : Int → Nat) (g rs d : Nat) : Nat → U8 → Nat → Nat → Int → U8
  | 0, b, _, _, _ => b
  | Nat.succ n, b, k, ir, i0 =>
      if ir + 1 = rs then
        fillGo pack g rs d n (b.set k (pack ((g * ir : Nat) + i0))) (k + 1 + d) 0
          (i0 - (g * rs : Nat))
      else
        fillGo pack g rs d n (b.set k (pack ((g * ir : Nat) + i0))) (k + 1) (ir + 1) i0

/-- The byte computed by one iteration of `fillColorData_1`:
`clArray[i+7] + (clArray[i+6] << 1) + ... + (clArray[i] << 7)`.
The first addend is unshifted, so when it is `undefined` the sum is NaN and
the stored byte is 0; the shifted addends coerce `undefined` to 0. -/
def packByte1 (cl : List Nat) (base : Int) : Nat :=
  match jsGet cl (base + 7) with
  | none => 0
  | some v7 =>
      v7 + jsGetD cl (base + 6) * 2 + jsGetD cl (base + 5) * 4 + jsGetD cl (base + 4) * 8 +
        jsGetD cl (base + 3) * 16 + jsGetD cl (base + 2) * 32 + jsGetD cl (base + 1) * 64 +
        jsGetD cl base * 128

/-- The byte computed by one iteration of `fillColorData_4`:
`clArray[i+1] | (clArray[i] << 4)` (bitwise or; undefined coerces to 0). -/
def packByte4 (cl : List Nat) (base : Int) : Nat :=
  Nat.lor (jsGetD cl (base + 1)) (jsGetD cl base * 16)

/-- `fillColorData_1(bytes, clArray, paletteSize, rowSize, delta)`:
monochrome encoder, 8 pixels per byte, `ceil(pointSize/8)` iterations,
initial row start `pointSize - rowSize*PIX_1BIT`. -/
def fillColorData_1 (bytes : U8) (clArray : List Nat) (paletteSize rowSize delta : Nat) : U8 :=
  fillGo (packByte1 clArray) PIX_1BIT rowSize delta ((clArray.length + 7) / 8) bytes
    (FILE_HEADER_SIZE + IMG_HEADER_SIZE + paletteSize) 0
    ((clArray.length : Int) - (rowSize * PIX_1BIT : Nat))

/-- `fillColorData_4(bytes, clArray, paletteSize, rowSize, delta)`:
2 pixels per byte, `ceil(pointSize/2)` iterations, initial row start
`pointSize - rowSize*PIX_4BIT`. -/
def fillColorData_4 (bytes : U8) (clArray : List Nat) (paletteSize rowSize delta : Nat) : U8 :=
  fillGo (packByte4 clArray) PIX_4BIT rowSize delta ((clArray.length + 1) / 2) bytes
    (FILE_HEADER_SIZE + IMG_HEADER_SIZE + paletteSize) 0
    ((clArray.length : Int) - (rowSize * PIX_4BIT : Nat))

/-- `fillColorData_8(bytes, clArray, paletteSize, rowSize, delta)`:
one source value per byte, `pointSize` iterations, initial row start
`pointSize - rowSize`. -/
def fillColorData_8 (bytes : U8) (clArray : List Nat) (paletteSize rowSize delta : Nat) : U8 :=
  fillGo (fun base => jsGetD clArray base) 1 rowSize delta clArray.length bytes
    (FILE_HEADER_SIZE + IMG_HEADER_SIZE + paletteSize) 0
    ((clArray.length : Int) - (rowSize : Nat))

/-- The runtime error the 16-bit and 24-bit encoders raise in strict mode:
TypeError from `FILE_HEADER_SIZE = 14 + IMG_HEADER_SIZE`. -/
inductive JsError where
  | constAssign
deriving DecidableEq, Repr

/-- `fillColorData_16`: its first statement assigns to the const
`FILE_HEADER_SIZE`, throwing before any pixel byte is written. -/
def fillColorData_16 (bytes : U8) (clArray : List Nat) : Except JsError U8 :=
  Except.error JsError.constAssign

/-- `fillColorData_24`: same leading const assignment (and its parameter list
omits the buffer, so the later `bytes[k++]` would hit an undeclared
identifier); it throws before any pixel byte is written. -/
def fillColorData_24 (clArray : List Nat) : Except JsError U8 :=
  Except.error JsError.constAssign

/-- `saveAsBMP(clArray, width, height, encoding, name, palette)`: header,
palette (when nonempty), then the depth-dispatched pixel encoder. The
`switch` sends 16 to the 16-bit encoder and both 24 and every unlisted
depth to the 24-bit encoder. The final `writeFile` is outside the model;
the embedding returns the buffer that would be written. -/
def saveAsBMP (clArray : List Nat) (width height encoding : Nat) (palette : List RgbEntry) :
    Except JsError U8 :=
  let r := createHeader width height encoding
  let paletteSize := palette.length * PALETTE_BYTE_SIZE
  let bytes := if paletteSize > 0 then fillPalette r.bytes palette else r.bytes
  if encoding = 1 then Except.ok (fillColorData_1 bytes clArray paletteSize r.rowSizeBase r.deltaBase)
  else if encoding = 4 then Except.ok (fillColorData_4 bytes clArray paletteSize r.rowSizeBase r.deltaBase)
  else if encoding = 8 then Except.ok (fillColorData_8 bytes clArray paletteSize r.rowSizeBase r.deltaBase)
  else if encoding = 16 then fillColorData_16 bytes clArray
  else fillColorData_24 clArray

/-! Spec-side definitions, used to state the claims. -/

/-- The buffer of a successful encode (dummy empty buffer on error). -/
def okBytes (r : Except JsError U8) : U8 :=
  match r with
  | Except.ok b => b
  | Except.error _ => U8.mk0 0

/-- Little-endian decode of 4 bytes at a given offset. -/
def readLE4 (b : U8) (off : Nat) : Nat :=
  b.get off + 256 * b.get (off + 1) + 65536 * b.get (off + 2) + 16777216 * b.get (off + 3)

/-- Little-endian decode of 2 bytes at a given offset. -/
def readLE2 (b : U8) (off : Nat) : Nat :=
  b.get off + 256 * b.get (off + 1)

/-- Modelled from the spec: `rowSizeBase = ceiling(bitsPerPixel * width / 8)`
(section 3 invariant of the spec). -/
def specRowSizeBase (width bits : Nat) : Nat := (bits * width + 7) / 8

/-- Modelled from the spec (section 4.4 packing table): the j-th byte of the
file row r (file rows are the image rows bottom-up), for the indexed depths.
Depth 1: 8 pixels MSB-first; depth 4: first pixel in the high nibble;
depth 8: the palette index itself. -/
def specRowByte (e : Nat) (cl : List Nat) (w h r j : Nat) : Nat :=
  let base := (h - 1 - r) * w
  if e = 1 then
    cl.getD (base + 8 * j) 0 * 128 + cl.getD (base + 8 * j + 1) 0 * 64 +
      cl.getD (base + 8 * j + 2) 0 * 32 + cl.getD (base + 8 * j + 3) 0 * 16 +
      cl.getD (base + 8 * j + 4) 0 * 8 + cl.getD (base + 8 * j + 5) 0 * 4 +
      cl.getD (base + 8 * j + 6) 0 * 2 + cl.getD (base + 8 * j + 7) 0
  else if e = 4 then
    cl.getD (base + 2 * j) 0 * 16 + cl.getD (base + 2 * j + 1) 0
  else
    cl.getD (base + j) 0

/-!
Proof-layer definitions: the effect of the shared encoder loop, expressed
row by row. `writeSeq` writes one row of `c` packed bytes at cursor k;
`writeRows` writes `m` such rows, skipping `d` padding bytes after each and
moving the source row start down by `g * rs`.
-/

/-- One row of the encoder loop: c bytes at k, k+1, ..., packed from row
positions ir, ir+1, ... over row base i0. -/
def writeSeq (pack : Int → Nat) (g : Nat) : Nat → U8 → Nat → Nat → Int → U8
  | 0, b, _, _, _ => b
  | Nat.succ c, b, k, ir, i0 =>
      writeSeq pack g c (b.set k (pack ((g * ir : Nat) + i0))) (k + 1) (ir + 1) i0

/-- m rows of the encoder loop, each rs bytes wide plus d padding bytes. -/
def writeRows (pack : Int → Nat) (g rs d : Nat) : Nat → U8 → Nat → Int → U8
  | 0, b, _, _ => b
  | Nat.succ m, b, k, i0 =>
      writeRows pack g rs d m (writeSeq pack g rs b k 0 i0) (k + rs + d) (i0 - (g * rs : Nat))

/-! Helper lemmas about the buffer model. -/

@[simp]
theorem U8.size_mk0 (n : Nat) : (U8.mk0 n).size = n := rfl

@[simp]
theorem U8.size_set (b : U8) (k v : Nat) : (U8.set b k v).size = b.size := by
  unfold U8.set; split <;> rfl

@[simp]
theorem U8.get_mk0 (n j : Nat) : (U8.mk0 n).get j = 0 := by
  unfold U8.get U8.mk0; split <;> rfl

theorem U8.get_set (b : U8) (k v j : Nat) :
    (U8.set b k v).get j = if j = k ∧ k < b.size then v % 256 else b.get j := by
  unfold U8.set U8.get
  by_cases hk : k < b.size
  · by_cases hj : j = k
    · subst hj; simp [hk]
    · simp [hk, hj]
  · simp [hk]

theorem U8.get_set_ne (b : U8) (k v j : Nat) (h : j ≠ k) :
    (U8.set b k v).get j = b.get j := by
  rw [U8.get_set, if_neg]; intro hc; exact h hc.1

theorem U8.get_set_self (b : U8) (k v : Nat) :
    (U8.set b k v).get k = if k < b.size then v % 256 else 0 := by
  rw [U8.get_set]
  by_cases hk : k < b.size
  · simp [hk]
  · simp [hk]
    unfold U8.get
    rw [if_neg hk]

/-! Lemmas about writeSeq. -/

theorem writeSeq_size (pack : Int → Nat) (g : Nat) :
    ∀ (c : Nat) (b : U8) (k ir : Nat) (i0 : Int), (writeSeq pack g c b k ir i0).size = b.size := by
  intro c
  induction c with
  | zero => intro b k ir i0; rfl
  | succ c ih => intro b k ir i0; rw [writeSeq, ih, U8.size_set]

theorem writeSeq_get_lt (pack : Int → Nat) (g : Nat) :
    ∀ (c : Nat) (b : U8) (k ir : Nat) (i0 : Int) (j : Nat), j < k →
      (writeSeq pack g c b k ir i0).get j = b.get j := by
  intro c
  induction c with
  | zero => intro b k ir i0 j hj; rfl
  | succ c ih =>
    intro b k ir i0 j hj
    rw [writeSeq, ih _ _ _ _ _ (by omega), U8.get_set_ne _ _ _ _ (by omega)]

theorem writeSeq_get_ge (pack : Int → Nat) (g : Nat) :
    ∀ (c : Nat) (b : U8) (k ir : Nat) (i0 : Int) (j : Nat), k + c ≤ j →
      (writeSeq pack g c b k ir i0).get j = b.get j := by
  intro c
  induction c with
  | zero => intro b k ir i0 j hj; rfl
  | succ c ih =>
    intro b k ir i0 j hj
    rw [writeSeq, ih _ _ _ _ _ (by omega), U8.get_set_ne _ _ _ _ (by omega)]

theorem writeSeq_get_at (pack : Int → Nat) (g : Nat) :
    ∀ (c : Nat) (b : U8) (k ir : Nat) (i0 : Int) (t : Nat), t < c →
      (writeSeq pack g c b k ir i0).get (k + t) =
        if k + t < b.size then pack ((g * (ir + t) : Nat) + i0) % 256 else 0 := by
  intro c
  induction c with
  | zero => intro b k ir i0 t ht; omega
  | succ c ih =>
    intro b k ir i0 t ht
    match t with
    | 0 =>
      rw [writeSeq, writeSeq_get_lt _ _ _ _ _ _ _ _ (by omega)]
      simpa using U8.get_set_self b k _
    | Nat.succ t =>
      have h1 : k + (t + 1) = (k + 1) + t := by omega
      rw [writeSeq, h1, ih _ _ _ _ _ (by omega), U8.size_set]
      have h2 : ir + 1 + t = ir + (t + 1) := by omega
      rw [h2]

/-! Lemmas about writeRows. -/

theorem writeRows_size (pack : Int → Nat) (g rs d : Nat) :
    ∀ (m : Nat) (b : U8) (k : Nat) (i0 : Int), (writeRows pack g rs d m b k i0).size = b.size := by
  intro m
  induction m with
  | zero => intro b k i0; rfl
  | succ m ih => intro b k i0; rw [writeRows, ih, writeSeq_size]

theorem writeRows_get_lt (pack : Int → Nat) (g rs d : Nat) :
    ∀ (m : Nat) (b : U8) (k : Nat) (i0 : Int) (j : Nat), j < k →
      (writeRows pack g rs d m b k i0).get j = b.get j := by
  intro m
  induction m with
  | zero => intro b k i0 j hj; rfl
  | succ m ih =>
    intro b k i0 j hj
    rw [writeRows, ih _ _ _ _ (by omega), writeSeq_get_lt _ _ _ _ _ _ _ _ (by omega)]

theorem writeRows_get_mid (pack : Int → Nat) (g rs d : Nat) :
    ∀ (m : Nat) (b : U8) (k : Nat) (i0 : Int) (r t : Nat), r < m → t < rs →
      (writeRows pack g rs d m b k i0).get (k + r * (rs + d) + t) =
        if k + r * (rs + d) + t < b.size then
          pack ((g * t : Nat) + (i0 - (g * rs : Nat) * (r : Nat))) % 256
        else 0 := by
  intro m
  induction m with
  | zero => intro b k i0 r t hr ht; omega
  | succ m ih =>
    intro b k i0 r t hr ht
    match r with
    | 0 =>
      have hpos : k + 0 * (rs + d) + t = k + t := by ring
      rw [writeRows, hpos, writeRows_get_lt _ _ _ _ _ _ _ _ _ (by omega),
        writeSeq_get_at _ _ _ _ _ _ _ _ ht]
      have harg : ((g * (0 + t) : Nat) : Int) + i0 =
          ((g * t : Nat) : Int) + (i0 - ((g * rs : Nat) : Int) * ((0 : Nat) : Int)) := by
        push_cast; ring
      rw [harg]
    | Nat.succ r =>
      have hpos : k + (r + 1) * (rs + d) + t = (k + rs + d) + r * (rs + d) + t := by ring
      rw [writeRows, hpos, ih _ _ _ _ _ (by omega) ht, writeSeq_size]
      have harg : ((g * t : Nat) : Int) + (i0 - ((g * rs : Nat) : Int) - ((g * rs : Nat) : Int) * ((r : Nat) : Int)) =
          ((g * t : Nat) : Int) + (i0 - ((g * rs : Nat) : Int) * (((r + 1 : Nat)) : Int)) := by
        push_cast; ring
      rw [← hpos, harg]

theorem writeRows_get_pad (pack : Int → Nat) (g rs d : Nat) :
    ∀ (m : Nat) (b : U8) (k : Nat) (i0 : Int) (r t : Nat), r < m → rs ≤ t → t < rs + d →
      (writeRows pack g rs d m b k i0).get (k + r * (rs + d) + t) =
        b.get (k + r * (rs + d) + t) := by
  intro m
  induction m with
  | zero => intro b k i0 r t hr ht1 ht2; omega
  | succ m ih =>
    intro b k i0 r t hr ht1 ht2
    match r with
    | 0 =>
      have hpos : k + 0 * (rs + d) + t = k + t := by ring
      rw [writeRows, hpos, writeRows_get_lt _ _ _ _ _ _ _ _ _ (by omega),
        writeSeq_get_ge _ _ _ _ _ _ _ _ (by omega)]
    | Nat.succ r =>
      have hpos : k + (r + 1) * (rs + d) + t = (k + rs + d) + r * (rs + d) + t := by ring
      rw [writeRows, hpos, ih _ _ _ _ _ (by omega) ht1 ht2,
        writeSeq_get_ge _ _ _ _ _ _ _ _ (by omega)]

/-! Lemmas about the encoder loop fillGo. -/

theorem fillGo_size (pack : Int → Nat) (g rs d : Nat) :
    ∀ (n : Nat) (b : U8) (k ir : Nat) (i0 : Int), (fillGo pack g rs d n b k ir i0).size = b.size := by
  intro n
  induction n with
  | zero => intro b k ir i0; rfl
  | succ n ih =>
    intro b k ir i0
    rw [fillGo]
    split
    · rw [ih, U8.size_set]
    · rw [ih, U8.size_set]

theorem fillGo_get_lt (pack : Int → Nat) (g rs d : Nat) :
    ∀ (n : Nat) (b : U8) (k ir : Nat) (i0 : Int) (j : Nat), j < k →
      (fillGo pack g rs d n b k ir i0).get j = b.get j := by
  intro n
  induction n with
  | zero => intro b k ir i0 j hj; rfl
  | succ n ih =>
    intro b k ir i0 j hj
    rw [fillGo]
    split
    · rw [ih _ _ _ _ _ (by omega), U8.get_set_ne _ _ _ _ (by omega)]
    · rw [ih _ _ _ _ _ (by omega), U8.get_set_ne _ _ _ _ (by omega)]

theorem fillGo_seq (pack : Int → Nat) (g rs d : Nat) :
    ∀ (c m : Nat) (b : U8) (k ir : Nat) (i0 : Int), ir + (c + 1) = rs →
      fillGo pack g rs d (c + 1 + m) b k ir i0 =
        fillGo pack g rs d m (writeSeq pack g (c + 1) b k ir i0) (k + (c + 1) + d) 0
          (i0 - (g * rs : Nat)) := by
  intro c
  induction c with
  | zero =>
    intro m b k ir i0 hir
    rw [show 0 + 1 + m = m + 1 from by omega, fillGo, if_pos (show ir + 1 = rs from by omega),
      writeSeq, writeSeq]
  | succ c ih =>
    intro m b k ir i0 hir
    rw [show c + 1 + 1 + m = (c + 1 + m) + 1 from by omega, fillGo,
      if_neg (show ¬ ir + 1 = rs from by omega), writeSeq,
      ih m _ (k + 1) (ir + 1) i0 (by omega),
      show k + (c + 1 + 1) + d = k + 1 + (c + 1) + d from by omega]

theorem fillGo_rows (pack : Int → Nat) (g rs d : Nat) (hrs : 0 < rs) :
    ∀ (m : Nat) (b : U8) (k : Nat) (i0 : Int),
      fillGo pack g rs d (rs * m) b k 0 i0 = writeRows pack g rs d m b k i0 := by
  intro m
  induction m with
  | zero => intro b k i0; rw [Nat.mul_zero]; rfl
  | succ m ih =>
    intro b k i0
    have hstep : rs * (m + 1) = (rs - 1) + 1 + rs * m := by
      rw [Nat.mul_succ]; omega
    rw [hstep, fillGo_seq pack g rs d (rs - 1) (rs * m) b k 0 i0 (by omega),
      show rs - 1 + 1 = rs from by omega, ih, writeRows]

/-! Lemmas about fillPaletteGo. -/

theorem fillPaletteGo_size :
    ∀ (ps : List RgbEntry) (b : U8) (k : Nat), (fillPaletteGo b k ps).size = b.size := by
  intro ps
  induction ps with
  | nil => intro b k; rfl
  | cons p rest ih =>
    intro b k
    rw [fillPaletteGo, ih]
    simp

theorem fillPaletteGo_get_lt :
    ∀ (ps : List RgbEntry) (b : U8) (k j : Nat), j < k →
      (fillPaletteGo b k ps).get j = b.get j := by
  intro ps
  induction ps with
  | nil => intro b k j hj; rfl
  | cons p rest ih =>
    intro b k j hj
    rw [fillPaletteGo, ih _ _ _ (by omega), U8.get_set_ne _ _ _ _ (by omega),
      U8.get_set_ne _ _ _ _ (by omega), U8.get_set_ne _ _ _ _ (by omega),
      U8.get_set_ne _ _ _ _ (by omega)]

theorem fillPaletteGo_get_ge :
    ∀ (ps : List RgbEntry) (b : U8) (k j : Nat), k + 4 * ps.length ≤ j →
      (fillPaletteGo b k ps).get j = b.get j := by
  intro ps
  induction ps with
  | nil => intro b k j hj; rfl
  | cons p rest ih =>
    intro b k j hj
    simp only [List.length_cons] at hj
    rw [fillPaletteGo, ih _ _ _ (by omega), U8.get_set_ne _ _ _ _ (by omega),
      U8.get_set_ne _ _ _ _ (by omega), U8.get_set_ne _ _ _ _ (by omega),
      U8.get_set_ne _ _ _ _ (by omega)]

theorem fillPaletteGo_get_at :
    ∀ (ps : List RgbEntry) (b : U8) (k i : Nat), i < ps.length → k + 4 * ps.length ≤ b.size →
      (fillPaletteGo b k ps).get (k + 4 * i) = (ps.getD i ⟨0, 0, 0⟩).R % 256 ∧
      (fillPaletteGo b k ps).get (k + 4 * i + 1) = (ps.getD i ⟨0, 0, 0⟩).G % 256 ∧
      (fillPaletteGo b k ps).get (k + 4 * i + 2) = (ps.getD i ⟨0, 0, 0⟩).B % 256 ∧
      (fillPaletteGo b k ps).get (k + 4 * i + 3) = 0 := by
  intro ps
  induction ps with
  | nil => intro b k i hi hsz; simp at hi
  | cons p rest ih =>
    intro b k i hi hsz
    simp only [List.length_cons] at hsz
    match i with
    | 0 =>
      rw [fillPaletteGo]
      have hlt : ∀ (j : Nat), j < k + 4 →
          (fillPaletteGo ((((b.set k p.R).set (k + 1) p.G).set (k + 2) p.B).set (k + 3) 0)
            (k + 4) rest).get j =
          ((((b.set k p.R).set (k + 1) p.G).set (k + 2) p.B).set (k + 3) 0).get j := by
        intro j hj
        exact fillPaletteGo_get_lt rest _ _ _ hj
      refine ⟨?_, ?_, ?_, ?_⟩
      · rw [hlt _ (by omega), U8.get_set_ne _ _ _ _ (by omega), U8.get_set_ne _ _ _ _ (by omega),
          U8.get_set_ne _ _ _ _ (by omega)]
        simp only [Nat.mul_zero, Nat.add_zero]
        rw [U8.get_set_self, if_pos (by omega)]
        simp
      · rw [hlt _ (by omega), U8.get_set_ne _ _ _ _ (by omega), U8.get_set_ne _ _ _ _ (by omega)]
        simp only [Nat.mul_zero, Nat.add_zero]
        rw [U8.get_set_self]
        simp only [U8.size_set]
        rw [if_pos (by omega)]
        simp
      · rw [hlt _ (by omega), U8.get_set_ne _ _ _ _ (by omega)]
        simp only [Nat.mul_zero, Nat.add_zero]
        rw [U8.get_set_self]
        simp only [U8.size_set]
        rw [if_pos (by omega)]
        simp
      · simp only [Nat.mul_zero, Nat.add_zero]
        rw [hlt _ (by omega), U8.get_set_self]
        simp only [U8.size_set]
        rw [if_pos (by omega)]
    | Nat.succ i =>
      rw [fillPaletteGo]
      have h1 : k + 4 * (i + 1) = (k + 4) + 4 * i := by omega
      have := ih ((((b.set k p.R).set (k + 1) p.G).set (k + 2) p.B).set (k + 3) 0) (k + 4) i
        (by simpa using hi) (by simp; omega)
      rw [h1]
      simpa using this

/-! Padding arithmetic: the source pads rowSize0 up to the next multiple of 4. -/

theorem rowPad_total (n : Nat) :
    n + ((n - n % 4 + (if n % 4 > 0 then 4 else 0)) - n) =
      n - n % 4 + (if n % 4 > 0 then 4 else 0) := by
  split <;> omega

theorem rowPad_lt (n : Nat) : (n - n % 4 + (if n % 4 > 0 then 4 else 0)) - n < 4 := by
  split <;> omega

theorem rowPad_min (n : Nat) : n - n % 4 + (if n % 4 > 0 then 4 else 0) = 4 * ((n + 3) / 4) := by
  split <;> omega

/-! Lemmas about split2bytes. -/

theorem toInt32_of_lt (v : Nat) (hv : v < 2147483648) : toInt32 v = (v : Int) := by
  unfold toInt32
  rw [Nat.mod_eq_of_lt (by omega), if_pos hv]

theorem fdiv256_natCast (m : Nat) : Int.fdiv (m : Int) (256 : Int) = ((m / 256 : Nat) : Int) := by
  match m with
  | 0 => rfl
  | Nat.succ m => rfl

theorem and255_natCast (m : Nat) : and255 (m : Int) = m % 256 := by
  unfold and255
  omega

theorem split2bytes_of_lt (v : Nat) (hv : v < 2147483648) :
    split2bytes v =
      ⟨v % 256, v / 256 % 256, v / 256 / 256 % 256, v / 256 / 256 / 256 % 256⟩ := by
  simp only [split2bytes]
  rw [toInt32_of_lt v hv, fdiv256_natCast, fdiv256_natCast, fdiv256_natCast,
    and255_natCast, and255_natCast, and255_natCast, and255_natCast]

theorem split2bytes_decode (v : Nat) (hv : v < 2147483648) :
    (split2bytes v).b0 + 256 * (split2bytes v).b1 + 65536 * (split2bytes v).b2 +
      16777216 * (split2bytes v).b3 = v := by
  rw [split2bytes_of_lt v hv]
  dsimp only
  omega

theorem split2bytes_b0_lt (v : Nat) : (split2bytes v).b0 < 256 := by
  simp only [split2bytes, and255]
  omega

theorem split2bytes_b1_lt (v : Nat) : (split2bytes v).b1 < 256 := by
  simp only [split2bytes, and255]
  omega

theorem split2bytes_b2_lt (v : Nat) : (split2bytes v).b2 < 256 := by
  simp only [split2bytes, and255]
  omega

theorem split2bytes_b3_lt (v : Nat) : (split2bytes v).b3 < 256 := by
  simp only [split2bytes, and255]
  omega

/-! Lemmas about createHeader. -/

theorem createHeader_rowSizeBase (w h e : Nat) :
    (createHeader w h e).rowSizeBase = (getPixelBytes w h e).rowSizeBase := by
  simp [createHeader]

theorem createHeader_deltaBase (w h e : Nat) :
    (createHeader w h e).deltaBase = (getPixelBytes w h e).deltaBase := by
  simp [createHeader]

theorem createHeader_size (w h e : Nat) :
    (createHeader w h e).bytes.size =
      FILE_HEADER_SIZE + IMG_HEADER_SIZE + getPaletteBytes e + (getPixelBytes w h e).pixelSize := by
  simp [createHeader]

theorem createHeader_get_ge (w h e j : Nat) (hj : 54 ≤ j) :
    (createHeader w h e).bytes.get j = 0 := by
  have h54 : (54 : Nat) ≤ j := hj
  simp only [createHeader]
  repeat rw [U8.get_set_ne _ _ _ _ (by omega)]
  exact U8.get_mk0 _ _

theorem createHeader_sig (w h e : Nat) :
    (createHeader w h e).bytes.get 0 = 66 ∧ (createHeader w h e).bytes.get 1 = 77 := by
  refine ⟨?_, ?_⟩ <;>
    (simp only [createHeader]
     repeat rw [U8.get_set_ne _ _ _ _ (by omega)]
     rw [U8.get_set_self]
     simp only [U8.size_set, U8.size_mk0]
     rw [if_pos (by simp only [FILE_HEADER_SIZE, IMG_HEADER_SIZE]; omega)]
     try simp [B_CODE, M_CODE, IMG_HEADER_SIZE])

theorem createHeader_fileSize_bytes (w h e : Nat) :
    (createHeader w h e).bytes.get 2 =
      (split2bytes (FILE_HEADER_SIZE + IMG_HEADER_SIZE + getPaletteBytes e +
        (getPixelBytes w h e).pixelSize)).b0 % 256 ∧
    (createHeader w h e).bytes.get 3 =
      (split2bytes (FILE_HEADER_SIZE + IMG_HEADER_SIZE + getPaletteBytes e +
        (getPixelBytes w h e).pixelSize)).b1 % 256 ∧
    (createHeader w h e).bytes.get 4 =
      (split2bytes (FILE_HEADER_SIZE + IMG_HEADER_SIZE + getPaletteBytes e +
        (getPixelBytes w h e).pixelSize)).b2 % 256 ∧
    (createHeader w h e).bytes.get 5 =
      (split2bytes (FILE_HEADER_SIZE + IMG_HEADER_SIZE + getPaletteBytes e +
        (getPixelBytes w h e).pixelSize)).b3 % 256 := by
  refine ⟨?_, ?_, ?_, ?_⟩ <;>
    (simp only [createHeader]
     repeat rw [U8.get_set_ne _ _ _ _ (by omega)]
     rw [U8.get_set_self]
     simp only [U8.size_set, U8.size_mk0]
     rw [if_pos (by simp only [FILE_HEADER_SIZE, IMG_HEADER_SIZE]; omega)]
     try simp [B_CODE, M_CODE, IMG_HEADER_SIZE])

theorem createHeader_dataOffset_bytes (w h e : Nat) :
    (createHeader w h e).bytes.get 10 =
      (split2bytes (FILE_HEADER_SIZE + IMG_HEADER_SIZE + getPaletteBytes e)).b0 % 256 ∧
    (createHeader w h e).bytes.get 11 =
      (split2bytes (FILE_HEADER_SIZE + IMG_HEADER_SIZE + getPaletteBytes e)).b1 % 256 ∧
    (createHeader w h e).bytes.get 12 =
      (split2bytes (FILE_HEADER_SIZE + IMG_HEADER_SIZE + getPaletteBytes e)).b2 % 256 ∧
    (createHeader w h e).bytes.get 13 =
      (split2bytes (FILE_HEADER_SIZE + IMG_HEADER_SIZE + getPaletteBytes e)).b3 % 256 := by
  refine ⟨?_, ?_, ?_, ?_⟩ <;>
    (simp only [createHeader]
     repeat rw [U8.get_set_ne _ _ _ _ (by omega)]
     rw [U8.get_set_self]
     simp only [U8.size_set, U8.size_mk0]
     rw [if_pos (by simp only [FILE_HEADER_SIZE, IMG_HEADER_SIZE]; omega)]
     try simp [B_CODE, M_CODE, IMG_HEADER_SIZE])

theorem createHeader_dib (w h e : Nat) :
    (createHeader w h e).bytes.get 14 = 40 ∧ (createHeader w h e).bytes.get 15 = 0 ∧
    (createHeader w h e).bytes.get 16 = 0 ∧ (createHeader w h e).bytes.get 17 = 0 := by
  refine ⟨?_, ?_, ?_, ?_⟩ <;>
    (simp only [createHeader]
     repeat rw [U8.get_set_ne _ _ _ _ (by omega)]
     rw [U8.get_set_self]
     simp only [U8.size_set, U8.size_mk0]
     rw [if_pos (by simp only [FILE_HEADER_SIZE, IMG_HEADER_SIZE]; omega)]
     try simp [B_CODE, M_CODE, IMG_HEADER_SIZE])

theorem createHeader_width_bytes (w h e : Nat) :
    (createHeader w h e).bytes.get 18 = (split2bytes w).b0 % 256 ∧
    (createHeader w h e).bytes.get 19 = (split2bytes w).b1 % 256 ∧
    (createHeader w h e).bytes.get 20 = (split2bytes w).b2 % 256 ∧
    (createHeader w h e).bytes.get 21 = (split2bytes w).b3 % 256 := by
  refine ⟨?_, ?_, ?_, ?_⟩ <;>
    (simp only [createHeader]
     repeat rw [U8.get_set_ne _ _ _ _ (by omega)]
     rw [U8.get_set_self]
     simp only [U8.size_set, U8.size_mk0]
     rw [if_pos (by simp only [FILE_HEADER_SIZE, IMG_HEADER_SIZE]; omega)]
     try simp [B_CODE, M_CODE, IMG_HEADER_SIZE])

theorem createHeader_height_bytes (w h e : Nat) :
    (createHeader w h e).bytes.get 22 = (split2bytes h).b0 % 256 ∧
    (createHeader w h e).bytes.get 23 = (split2bytes h).b1 % 256 ∧
    (createHeader w h e).bytes.get 24 = (split2bytes h).b2 % 256 ∧
    (createHeader w h e).bytes.get 25 = (split2bytes h).b3 % 256 := by
  refine ⟨?_, ?_, ?_, ?_⟩ <;>
    (simp only [createHeader]
     repeat rw [U8.get_set_ne _ _ _ _ (by omega)]
     rw [U8.get_set_self]
     simp only [U8.size_set, U8.size_mk0]
     rw [if_pos (by simp only [FILE_HEADER_SIZE, IMG_HEADER_SIZE]; omega)]
     try simp [B_CODE, M_CODE, IMG_HEADER_SIZE])

theorem createHeader_planes (w h e : Nat) :
    (createHeader w h e).bytes.get 26 = 1 ∧ (createHeader w h e).bytes.get 27 = 0 := by
  refine ⟨?_, ?_⟩ <;>
    (simp only [createHeader]
     repeat rw [U8.get_set_ne _ _ _ _ (by omega)]
     rw [U8.get_set_self]
     simp only [U8.size_set, U8.size_mk0]
     rw [if_pos (by simp only [FILE_HEADER_SIZE, IMG_HEADER_SIZE]; omega)]
     try simp [B_CODE, M_CODE, IMG_HEADER_SIZE])

theorem createHeader_bpp (w h e : Nat) :
    (createHeader w h e).bytes.get 28 = e % 256 ∧ (createHeader w h e).bytes.get 29 = 0 := by
  refine ⟨?_, ?_⟩ <;>
    (simp only [createHeader]
     repeat rw [U8.get_set_ne _ _ _ _ (by omega)]
     rw [U8.get_set_self]
     simp only [U8.size_set, U8.size_mk0]
     rw [if_pos (by simp only [FILE_HEADER_SIZE, IMG_HEADER_SIZE]; omega)]
     try simp [B_CODE, M_CODE, IMG_HEADER_SIZE])

theorem createHeader_compression (w h e : Nat) :
    (createHeader w h e).bytes.get 30 = 0 ∧ (createHeader w h e).bytes.get 31 = 0 ∧
    (createHeader w h e).bytes.get 32 = 0 ∧ (createHeader w h e).bytes.get 33 = 0 := by
  refine ⟨?_, ?_, ?_, ?_⟩ <;>
    (simp only [createHeader]
     repeat rw [U8.get_set_ne _ _ _ _ (by omega)]
     rw [U8.get_set_self]
     simp only [U8.size_set, U8.size_mk0]
     rw [if_pos (by simp only [FILE_HEADER_SIZE, IMG_HEADER_SIZE]; omega)]
     try simp [B_CODE, M_CODE, IMG_HEADER_SIZE])

theorem createHeader_resolution (w h e : Nat) :
    (createHeader w h e).bytes.get 38 = (split2bytes DPI_200_PIX_PER_M).b0 % 256 ∧
    (createHeader w h e).bytes.get 39 = (split2bytes DPI_200_PIX_PER_M).b1 % 256 ∧
    (createHeader w h e).bytes.get 40 = (split2bytes DPI_200_PIX_PER_M).b2 % 256 ∧
    (createHeader w h e).bytes.get 41 = (split2bytes DPI_200_PIX_PER_M).b3 % 256 ∧
    (createHeader w h e).bytes.get 42 = (split2bytes DPI_200_PIX_PER_M).b0 % 256 ∧
    (createHeader w h e).bytes.get 43 = (split2bytes DPI_200_PIX_PER_M).b1 % 256 ∧
    (createHeader w h e).bytes.get 44 = (split2bytes DPI_200_PIX_PER_M).b2 % 256 ∧
    (createHeader w h e).bytes.get 45 = (split2bytes DPI_200_PIX_PER_M).b3 % 256 := by
  refine ⟨?_, ?_, ?_, ?_, ?_, ?_, ?_, ?_⟩ <;>
    (simp only [createHeader]
     repeat rw [U8.get_set_ne _ _ _ _ (by omega)]
     rw [U8.get_set_self]
     simp only [U8.size_set, U8.size_mk0]
     rw [if_pos (by simp only [FILE_HEADER_SIZE, IMG_HEADER_SIZE]; omega)]
     try simp [B_CODE, M_CODE, IMG_HEADER_SIZE])

/-! Evaluating the JS reads and packers at in-range natural indices. -/

theorem jsGet_natCast (cl : List Nat) (n : Nat) : jsGet cl (n : Int) = cl.get? n := by
  simp [jsGet]

theorem jsGetD_natCast (cl : List Nat) (n : Nat) : jsGetD cl (n : Int) = cl.getD n 0 := by
  simp [jsGetD, jsGet_natCast]

theorem jsGetD_eval (cl : List Nat) (base : Int) (n : Nat) (hbase : base = (n : Int)) :
    jsGetD cl base = cl.getD n 0 := by
  subst hbase; exact jsGetD_natCast cl n

theorem packByte1_eval (cl : List Nat) (base : Int) (n : Nat) (hbase : base = (n : Int))
    (h7 : n + 7 < cl.length) :
    packByte1 cl base =
      cl.getD (n + 7) 0 + cl.getD (n + 6) 0 * 2 + cl.getD (n + 5) 0 * 4 +
        cl.getD (n + 4) 0 * 8 + cl.getD (n + 3) 0 * 16 + cl.getD (n + 2) 0 * 32 +
        cl.getD (n + 1) 0 * 64 + cl.getD n 0 * 128 := by
  subst hbase
  unfold packByte1
  rw [show ((n : Int) + 7) = ((n + 7 : Nat) : Int) from by push_cast; ring,
    jsGet_natCast, List.get?_eq_get h7]
  dsimp only
  rw [show ((n : Int) + 6) = ((n + 6 : Nat) : Int) from by push_cast; ring,
    show ((n : Int) + 5) = ((n + 5 : Nat) : Int) from by push_cast; ring,
    show ((n : Int) + 4) = ((n + 4 : Nat) : Int) from by push_cast; ring,
    show ((n : Int) + 3) = ((n + 3 : Nat) : Int) from by push_cast; ring,
    show ((n : Int) + 2) = ((n + 2 : Nat) : Int) from by push_cast; ring,
    show ((n : Int) + 1) = ((n + 1 : Nat) : Int) from by push_cast; ring,
    jsGetD_natCast, jsGetD_natCast, jsGetD_natCast, jsGetD_natCast, jsGetD_natCast,
    jsGetD_natCast, jsGetD_natCast, List.getD_eq_get cl 0 h7]

theorem lor16_fin : ∀ (x y : Fin 16), Nat.lor x.val (y.val * 16) = x.val + y.val * 16 := by
  decide

theorem packByte4_eval (cl : List Nat) (base : Int) (n : Nat) (hbase : base = (n : Int))
    (hv0 : cl.getD n 0 < 16) (hv1 : cl.getD (n + 1) 0 < 16) :
    packByte4 cl base = cl.getD (n + 1) 0 + cl.getD n 0 * 16 := by
  subst hbase
  unfold packByte4
  rw [show ((n : Int) + 1) = ((n + 1 : Nat) : Int) from by push_cast; ring,
    jsGetD_natCast, jsGetD_natCast]
  exact lor16_fin ⟨cl.getD (n + 1) 0, hv1⟩ ⟨cl.getD n 0, hv0⟩

/-! Projections of getPixelBytes. -/

theorem getPixelBytes_1 (w h : Nat) : (getPixelBytes w h 1).rowSizeBase = (w + 4) / 8 := by
  simp [getPixelBytes]

theorem getPixelBytes_4 (w h : Nat) : (getPixelBytes w h 4).rowSizeBase = (w + 1) / 2 := by
  simp [getPixelBytes]

theorem getPixelBytes_8 (w h : Nat) : (getPixelBytes w h 8).rowSizeBase = w := by
  simp [getPixelBytes]

theorem getPixelBytes_pixelSize (w h e : Nat) :
    (getPixelBytes w h e).pixelSize =
      ((getPixelBytes w h e).rowSizeBase + (getPixelBytes w h e).deltaBase) * h := by
  simp only [getPixelBytes]
  congr 1
  exact (rowPad_total _).symm

theorem getPixelBytes_delta_lt (w h e : Nat) : (getPixelBytes w h e).deltaBase < 4 := by
  simp only [getPixelBytes]
  exact rowPad_lt _

/-! fillPalette wrappers (the palette region starts at byte 54). -/

theorem fillPalette_size (b : U8) (pal : List RgbEntry) : (fillPalette b pal).size = b.size := by
  unfold fillPalette
  exact fillPaletteGo_size pal b _

theorem fillPalette_get_lt (b : U8) (pal : List RgbEntry) (j : Nat) (hj : j < 54) :
    (fillPalette b pal).get j = b.get j := by
  unfold fillPalette
  exact fillPaletteGo_get_lt pal b _ j (by simp [FILE_HEADER_SIZE, IMG_HEADER_SIZE]; omega)

theorem fillPalette_get_ge (b : U8) (pal : List RgbEntry) (j : Nat)
    (hj : 54 + 4 * pal.length ≤ j) : (fillPalette b pal).get j = b.get j := by
  unfold fillPalette
  exact fillPaletteGo_get_ge pal b _ j (by simp [FILE_HEADER_SIZE, IMG_HEADER_SIZE]; omega)

/-! Dispatch of saveAsBMP per depth. -/

theorem saveAsBMP_1 (cl : List Nat) (w h : Nat) (pal : List RgbEntry) :
    saveAsBMP cl w h 1 pal = Except.ok (fillColorData_1
      (if pal.length * PALETTE_BYTE_SIZE > 0 then fillPalette (createHeader w h 1).bytes pal
        else (createHeader w h 1).bytes)
      cl (pal.length * PALETTE_BYTE_SIZE) (createHeader w h 1).rowSizeBase
      (createHeader w h 1).deltaBase) := by
  simp [saveAsBMP]

theorem saveAsBMP_4 (cl : List Nat) (w h : Nat) (pal : List RgbEntry) :
    saveAsBMP cl w h 4 pal = Except.ok (fillColorData_4
      (if pal.length * PALETTE_BYTE_SIZE > 0 then fillPalette (createHeader w h 4).bytes pal
        else (createHeader w h 4).bytes)
      cl (pal.length * PALETTE_BYTE_SIZE) (createHeader w h 4).rowSizeBase
      (createHeader w h 4).deltaBase) := by
  simp [saveAsBMP]

theorem saveAsBMP_8 (cl : List Nat) (w h : Nat) (pal : List RgbEntry) :
    saveAsBMP cl w h 8 pal = Except.ok (fillColorData_8
      (if pal.length * PALETTE_BYTE_SIZE > 0 then fillPalette (createHeader w h 8).bytes pal
        else (createHeader w h 8).bytes)
      cl (pal.length * PALETTE_BYTE_SIZE) (createHeader w h 8).rowSizeBase
      (createHeader w h 8).deltaBase) := by
  simp [saveAsBMP]

theorem saveAsBMP_16 (cl : List Nat) (w h : Nat) (pal : List RgbEntry) :
    saveAsBMP cl w h 16 pal = Except.error JsError.constAssign := by
  simp [saveAsBMP, fillColorData_16]

theorem saveAsBMP_default (cl : List Nat) (w h e : Nat) (pal : List RgbEntry)
    (h1 : e ≠ 1) (h4 : e ≠ 4) (h8 : e ≠ 8) (h16 : e ≠ 16) :
    saveAsBMP cl w h e pal = Except.error JsError.constAssign := by
  simp [saveAsBMP, fillColorData_24, h1, h4, h8, h16]

/-!
Row-level characterization of the three indexed-depth encoders, for the
widths on which their row geometry is consistent (the source computes the
per-row source step as rowSize * pixelsPerByte, so rows align exactly when
width = pixelsPerByte * rowSize). File row r, byte j of the row: the byte
is packed from the source row h - 1 - r (bottom-up).
-/

theorem fill1_get (cl : List Nat) (rs d ps h : Nat) (b : U8) (hrs : 0 < rs)
    (hlen : cl.length = 8 * (rs * h)) (r j : Nat) (hr : r < h) (hj : j < rs)
    (hsz : 54 + ps + r * (rs + d) + j < b.size) :
    (fillColorData_1 b cl ps rs d).get (54 + ps + r * (rs + d) + j) =
      packByte1 cl (((h - 1 - r) * (8 * rs) + 8 * j : Nat) : Int) % 256 := by
  unfold fillColorData_1
  rw [show FILE_HEADER_SIZE + IMG_HEADER_SIZE + ps = 54 + ps from by
    simp [FILE_HEADER_SIZE, IMG_HEADER_SIZE]]
  simp only [PIX_1BIT]
  rw [hlen, show ((8 * (rs * h) + 7) / 8 : Nat) = rs * h from by omega,
    fillGo_rows _ _ _ _ hrs, writeRows_get_mid _ _ _ _ _ _ _ _ _ _ hr hj, if_pos hsz]
  congr 1
  congr 1
  obtain ⟨a, rfl⟩ : ∃ a, h = a + 1 + r := ⟨h - 1 - r, by omega⟩
  rw [show a + 1 + r - 1 - r = a from by omega]
  push_cast
  ring

theorem fill1_pad (cl : List Nat) (rs d ps h : Nat) (b : U8) (hrs : 0 < rs)
    (hlen : cl.length = 8 * (rs * h)) (r t : Nat) (hr : r < h) (ht1 : rs ≤ t)
    (ht2 : t < rs + d) :
    (fillColorData_1 b cl ps rs d).get (54 + ps + r * (rs + d) + t) =
      b.get (54 + ps + r * (rs + d) + t) := by
  unfold fillColorData_1
  rw [show FILE_HEADER_SIZE + IMG_HEADER_SIZE + ps = 54 + ps from by
    simp [FILE_HEADER_SIZE, IMG_HEADER_SIZE]]
  simp only [PIX_1BIT]
  rw [hlen, show ((8 * (rs * h) + 7) / 8 : Nat) = rs * h from by omega,
    fillGo_rows _ _ _ _ hrs, writeRows_get_pad _ _ _ _ _ _ _ _ _ _ hr ht1 ht2]

theorem fill4_get (cl : List Nat) (rs d ps h : Nat) (b : U8) (hrs : 0 < rs)
    (hlen : cl.length = 2 * (rs * h)) (r j : Nat) (hr : r < h) (hj : j < rs)
    (hsz : 54 + ps + r * (rs + d) + j < b.size) :
    (fillColorData_4 b cl ps rs d).get (54 + ps + r * (rs + d) + j) =
      packByte4 cl (((h - 1 - r) * (2 * rs) + 2 * j : Nat) : Int) % 256 := by
  unfold fillColorData_4
  rw [show FILE_HEADER_SIZE + IMG_HEADER_SIZE + ps = 54 + ps from by
    simp [FILE_HEADER_SIZE, IMG_HEADER_SIZE]]
  simp only [PIX_4BIT]
  rw [hlen, show ((2 * (rs * h) + 1) / 2 : Nat) = rs * h from by omega,
    fillGo_rows _ _ _ _ hrs, writeRows_get_mid _ _ _ _ _ _ _ _ _ _ hr hj, if_pos hsz]
  congr 1
  congr 1
  obtain ⟨a, rfl⟩ : ∃ a, h = a + 1 + r := ⟨h - 1 - r, by omega⟩
  rw [show a + 1 + r - 1 - r = a from by omega]
  push_cast
  ring

theorem fill4_pad (cl : List Nat) (rs d ps h : Nat) (b : U8) (hrs : 0 < rs)
    (hlen : cl.length = 2 * (rs * h)) (r t : Nat) (hr : r < h) (ht1 : rs ≤ t)
    (ht2 : t < rs + d) :
    (fillColorData_4 b cl ps rs d).get (54 + ps + r * (rs + d) + t) =
      b.get (54 + ps + r * (rs + d) + t) := by
  unfold fillColorData_4
  rw [show FILE_HEADER_SIZE + IMG_HEADER_SIZE + ps = 54 + ps from by
    simp [FILE_HEADER_SIZE, IMG_HEADER_SIZE]]
  simp only [PIX_4BIT]
  rw [hlen, show ((2 * (rs * h) + 1) / 2 : Nat) = rs * h from by omega,
    fillGo_rows _ _ _ _ hrs, writeRows_get_pad _ _ _ _ _ _ _ _ _ _ hr ht1 ht2]

theorem fill8_get (cl : List Nat) (rs d ps h : Nat) (b : U8) (hrs : 0 < rs)
    (hlen : cl.length = rs * h) (r j : Nat) (hr : r < h) (hj : j < rs)
    (hsz : 54 + ps + r * (rs + d) + j < b.size) :
    (fillColorData_8 b cl ps rs d).get (54 + ps + r * (rs + d) + j) =
      jsGetD cl (((h - 1 - r) * rs + j : Nat) : Int) % 256 := by
  unfold fillColorData_8
  rw [show FILE_HEADER_SIZE + IMG_HEADER_SIZE + ps = 54 + ps from by
    simp [FILE_HEADER_SIZE, IMG_HEADER_SIZE]]
  rw [hlen, fillGo_rows _ _ _ _ hrs, writeRows_get_mid _ _ _ _ _ _ _ _ _ _ hr hj, if_pos hsz]
  congr 1
  congr 1
  obtain ⟨a, rfl⟩ : ∃ a, h = a + 1 + r := ⟨h - 1 - r, by omega⟩
  rw [show a + 1 + r - 1 - r = a from by omega]
  push_cast
  ring

theorem fill8_pad (cl : List Nat) (rs d ps h : Nat) (b : U8) (hrs : 0 < rs)
    (hlen : cl.length = rs * h) (r t : Nat) (hr : r < h) (ht1 : rs ≤ t) (ht2 : t < rs + d) :
    (fillColorData_8 b cl ps rs d).get (54 + ps + r * (rs + d) + t) =
      b.get (54 + ps + r * (rs + d) + t) := by
  unfold fillColorData_8
  rw [show FILE_HEADER_SIZE + IMG_HEADER_SIZE + ps = 54 + ps from by
    simp [FILE_HEADER_SIZE, IMG_HEADER_SIZE]]
  rw [hlen, fillGo_rows _ _ _ _ hrs, writeRows_get_pad _ _ _ _ _ _ _ _ _ _ hr ht1 ht2]

theorem fill1_size (cl : List Nat) (ps rs d : Nat) (b : U8) :
    (fillColorData_1 b cl ps rs d).size = b.size := by
  unfold fillColorData_1
  exact fillGo_size _ _ _ _ _ _ _ _ _

theorem fill4_size (cl : List Nat) (ps rs d : Nat) (b : U8) :
    (fillColorData_4 b cl ps rs d).size = b.size := by
  unfold fillColorData_4
  exact fillGo_size _ _ _ _ _ _ _ _ _

theorem fill8_size (cl : List Nat) (ps rs d : Nat) (b : U8) :
    (fillColorData_8 b cl ps rs d).size = b.size := by
  unfold fillColorData_8
  exact fillGo_size _ _ _ _ _ _ _ _ _

theorem fill1_get_lt (cl : List Nat) (ps rs d : Nat) (b : U8) (j : Nat) (hj : j < 54 + ps) :
    (fillColorData_1 b cl ps rs d).get j = b.get j := by
  unfold fillColorData_1
  exact fillGo_get_lt _ _ _ _ _ _ _ _ _ _ (by simp [FILE_HEADER_SIZE, IMG_HEADER_SIZE]; omega)

theorem fill4_get_lt (cl : List Nat) (ps rs d : Nat) (b : U8) (j : Nat) (hj : j < 54 + ps) :
    (fillColorData_4 b cl ps rs d).get j = b.get j := by
  unfold fillColorData_4
  exact fillGo_get_lt _ _ _ _ _ _ _ _ _ _ (by simp [FILE_HEADER_SIZE, IMG_HEADER_SIZE]; omega)

theorem fill8_get_lt (cl : List Nat) (ps rs d : Nat) (b : U8) (j : Nat) (hj : j < 54 + ps) :
    (fillColorData_8 b cl ps rs d).get j = b.get j := by
  unfold fillColorData_8
  exact fillGo_get_lt _ _ _ _ _ _ _ _ _ _ (by simp [FILE_HEADER_SIZE, IMG_HEADER_SIZE]; omega)

theorem rowPad_mod (n : Nat) : (n - n % 4 + (if n % 4 > 0 then 4 else 0)) % 4 = 0 := by
  split <;> omega

theorem createHeader_size54 (w h e : Nat) :
    (createHeader w h e).bytes.size = 54 + getPaletteBytes e + (getPixelBytes w h e).pixelSize := by
  rw [createHeader_size]
  simp only [FILE_HEADER_SIZE, IMG_HEADER_SIZE]

theorem fillPalette_get_at (b : U8) (pal : List RgbEntry) (i : Nat) (hi : i < pal.length)
    (hsz : 54 + 4 * pal.length ≤ b.size) :
    (fillPalette b pal).get (54 + 4 * i) = (pal.getD i ⟨0, 0, 0⟩).R % 256 ∧
    (fillPalette b pal).get (54 + 4 * i + 1) = (pal.getD i ⟨0, 0, 0⟩).G % 256 ∧
    (fillPalette b pal).get (54 + 4 * i + 2) = (pal.getD i ⟨0, 0, 0⟩).B % 256 ∧
    (fillPalette b pal).get (54 + 4 * i + 3) = 0 := by
  unfold fillPalette
  rw [show FILE_HEADER_SIZE + IMG_HEADER_SIZE = 54 from by simp [FILE_HEADER_SIZE, IMG_HEADER_SIZE]]
  exact fillPaletteGo_get_at pal b 54 i hi hsz

theorem saveAsBMP_buf_size (w h e : Nat) (pal : List RgbEntry) :
    (if pal.length * PALETTE_BYTE_SIZE > 0 then fillPalette (createHeader w h e).bytes pal
      else (createHeader w h e).bytes).size =
      54 + getPaletteBytes e + (getPixelBytes w h e).pixelSize := by
  split
  · rw [fillPalette_size, createHeader_size54]
  · rw [createHeader_size54]

theorem saveAsBMP_base_zero (w h e : Nat) (pal : List RgbEntry) (j : Nat)
    (hj : 54 + 4 * pal.length ≤ j) :
    (if pal.length * PALETTE_BYTE_SIZE > 0 then fillPalette (createHeader w h e).bytes pal
      else (createHeader w h e).bytes).get j = 0 := by
  split
  · rw [fillPalette_get_ge _ _ _ hj]
    exact createHeader_get_ge w h e j (by omega)
  · exact createHeader_get_ge w h e j (by omega)

theorem saveAsBMP_get_lt_pal (cl : List Nat) (w h e : Nat) (pal : List RgbEntry) (buf : U8)
    (he : e = 1 ∨ e = 4 ∨ e = 8) (hok : saveAsBMP cl w h e pal = Except.ok buf)
    (j : Nat) (hj : j < 54 + pal.length * PALETTE_BYTE_SIZE) :
    buf.get j = (if pal.length * PALETTE_BYTE_SIZE > 0
      then fillPalette (createHeader w h e).bytes pal
      else (createHeader w h e).bytes).get j := by
  rcases he with rfl | rfl | rfl
  · rw [saveAsBMP_1] at hok
    injection hok with hb
    subst hb
    exact fill1_get_lt cl _ _ _ _ j hj
  · rw [saveAsBMP_4] at hok
    injection hok with hb
    subst hb
    exact fill4_get_lt cl _ _ _ _ j hj
  · rw [saveAsBMP_8] at hok
    injection hok with hb
    subst hb
    exact fill8_get_lt cl _ _ _ _ j hj

theorem saveAsBMP_header_preserved (cl : List Nat) (w h e : Nat) (pal : List RgbEntry) (buf : U8)
    (he : e = 1 ∨ e = 4 ∨ e = 8) (hok : saveAsBMP cl w h e pal = Except.ok buf)
    (j : Nat) (hj : j < 54) :
    buf.get j = (createHeader w h e).bytes.get j := by
  rw [saveAsBMP_get_lt_pal cl w h e pal buf he hok j (by omega)]
  split
  · exact fillPalette_get_lt _ _ _ hj
  · rfl

theorem saveAsBMP_size (cl : List Nat) (w h e : Nat) (pal : List RgbEntry) (buf : U8)
    (he : e = 1 ∨ e = 4 ∨ e = 8) (hok : saveAsBMP cl w h e pal = Except.ok buf) :
    buf.size = 54 + getPaletteBytes e + (getPixelBytes w h e).pixelSize := by
  rcases he with rfl | rfl | rfl
  · rw [saveAsBMP_1] at hok
    injection hok with hb
    subst hb
    rw [fill1_size, saveAsBMP_buf_size]
  · rw [saveAsBMP_4] at hok
    injection hok with hb
    subst hb
    rw [fill4_size, saveAsBMP_buf_size]
  · rw [saveAsBMP_8] at hok
    injection hok with hb
    subst hb
    rw [fill8_size, saveAsBMP_buf_size]

theorem rowpos_lt (rs d ps r j h : Nat) (hr : r < h) (hj : j < rs + d) :
    54 + ps + r * (rs + d) + j < 54 + ps + (rs + d) * h := by
  have h1 : r * (rs + d) + (rs + d) ≤ (rs + d) * h := by
    have h2 := Nat.mul_le_mul_left (rs + d) (show r + 1 ≤ h from hr)
    calc r * (rs + d) + (rs + d) = (rs + d) * (r + 1) := by ring
      _ ≤ (rs + d) * h := h2
  omega

theorem getD_lt (cl : List Nat) (n c : Nat) (hc : 0 < c) (hall : ∀ v ∈ cl, v < c) :
    cl.getD n 0 < c := by
  by_cases hn : n < cl.length
  · rw [List.getD_eq_get cl 0 hn]
    exact hall _ (List.get_mem cl n hn)
  · rw [List.getD_eq_default _ _ (by omega)]
    exact hc

/-!
Claim theorems. Each claim of the specification is settled below against the
embedding of bmp_utils.js.
-/

/-- C3 (code bug): the claim says rowSizeBase = ceiling(bitsPerPixel*width/8),
and for 1-bit that is what a valid BMP needs, but the source computes
`Math.round(width/8)`, which rounds width = 2 down to a 0-byte row: at
width 2, depth 1, getPixelBytes returns rowSizeBase 0 while the documented
ceiling (specRowSizeBase) is 1, so the row cannot hold its pixels. -/
theorem C3_rowSizeBase_rounds_down :
    (getPixelBytes 2 1 1).rowSizeBase = 0 ∧ specRowSizeBase 2 1 = 1 ∧
    (getPixelBytes 2 1 1).rowSizeBase ≠ specRowSizeBase 2 1 := by
  decide

/-- C9 (confirmed): for width > 0 and a supported depth, the padded row size
rowSizeBase + deltaBase is a multiple of 4, the padding deltaBase is at most
3, and the padded size equals 4*ceil(rowSizeBase/4), the smallest multiple
of 4 that is at least rowSizeBase. -/
theorem C9_row_padding (w h e : Nat) (hw : 0 < w)
    (he : e = 1 ∨ e = 4 ∨ e = 8 ∨ e = 16 ∨ e = 24) :
    ((getPixelBytes w h e).rowSizeBase + (getPixelBytes w h e).deltaBase) % 4 = 0 ∧
    (getPixelBytes w h e).deltaBase < 4 ∧
    (getPixelBytes w h e).rowSizeBase + (getPixelBytes w h e).deltaBase =
      4 * (((getPixelBytes w h e).rowSizeBase + 3) / 4) := by
  refine ⟨?_, getPixelBytes_delta_lt w h e, ?_⟩
  · simp only [getPixelBytes]
    rw [rowPad_total]
    exact rowPad_mod _
  · simp only [getPixelBytes]
    rw [rowPad_total, rowPad_min]

/-- Witness for C9 at width 3, height 5, 24-bit: rowSizeBase 9 pads to 12. -/
theorem C9_row_padding_witness :
    ((getPixelBytes 3 5 24).rowSizeBase + (getPixelBytes 3 5 24).deltaBase) % 4 = 0 ∧
    (getPixelBytes 3 5 24).deltaBase < 4 ∧
    (getPixelBytes 3 5 24).rowSizeBase + (getPixelBytes 3 5 24).deltaBase =
      4 * (((getPixelBytes 3 5 24).rowSizeBase + 3) / 4) :=
  C9_row_padding 3 5 24 (by decide)
    (Or.inr (Or.inr (Or.inr (Or.inr rfl))))

/-- C10 (confirmed): at depth 16 and at depth 24 the dispatched pixel
encoder raises the strict-mode TypeError (assignment to the const
FILE_HEADER_SIZE) before writing any pixel byte, so saveAsBMP never
returns a buffer at these depths. -/
theorem C10_16_24_encoders_throw (cl : List Nat) (w h : Nat) (pal : List RgbEntry) (e : Nat)
    (he : e = 16 ∨ e = 24) :
    saveAsBMP cl w h e pal = Except.error JsError.constAssign := by
  rcases he with rfl | rfl
  · exact saveAsBMP_16 cl w h pal
  · exact saveAsBMP_default cl w h 24 pal (by decide) (by decide) (by decide) (by decide)

/-- Witness for C10: a 1x1 16-bit image errors out. -/
theorem C10_16_24_encoders_throw_witness :
    saveAsBMP [0] 1 1 16 [] = Except.error JsError.constAssign :=
  C10_16_24_encoders_throw [0] 1 1 [] 16 (Or.inl rfl)

/-- C6 counterexample: depth 7 is not rejected with an UnsupportedDepth
error before allocation; instead getPixelBytes silently gives it the 24-bit
row geometry (rowSizeBase 3 = 3*width), the header is built, and the call
fails only with the 24-bit encoder TypeError. -/
theorem C6_no_depth_validation_cx :
    (getPixelBytes 1 1 7).rowSizeBase = (getPixelBytes 1 1 24).rowSizeBase ∧
    (getPixelBytes 1 1 7).rowSizeBase = 3 ∧
    saveAsBMP [0] 1 1 7 [] = Except.error JsError.constAssign :=
  ⟨by decide, by decide, rfl⟩

/-- C6 (amended): a depth outside {1,4,8,16,32} (24 included) gets exactly
the 24-bit geometry from getPixelBytes and is dispatched to the 24-bit
encoder, whose const-assignment TypeError is the only failure; no
UnsupportedDepth validation exists anywhere. -/
theorem C6_unsupported_coerced_to_24 (cl : List Nat) (w h e : Nat) (pal : List RgbEntry)
    (h1 : e ≠ 1) (h4 : e ≠ 4) (h8 : e ≠ 8) (h16 : e ≠ 16) (h32 : e ≠ 32) :
    getPixelBytes w h e = getPixelBytes w h 24 ∧
    saveAsBMP cl w h e pal = Except.error JsError.constAssign := by
  constructor
  · simp [getPixelBytes, h1, h4, h8, h16, h32]
  · exact saveAsBMP_default cl w h e pal h1 h4 h8 h16

/-- Witness for C6 at depth 9. -/
theorem C6_unsupported_coerced_to_24_witness :
    getPixelBytes 2 3 9 = getPixelBytes 2 3 24 ∧
    saveAsBMP [0, 0, 0, 0, 0, 0] 2 3 9 [] = Except.error JsError.constAssign :=
  C6_unsupported_coerced_to_24 [0, 0, 0, 0, 0, 0] 2 3 9 [] (by decide) (by decide) (by decide)
    (by decide) (by decide)

/-- C7 counterexample: an 8-bit encode with an empty palette (palette length
0 instead of the required 256) is not rejected with PaletteSizeMismatch; it
completes and returns a buffer. -/
theorem C7_no_palette_error_cx : (saveAsBMP [0] 1 1 8 []).toOption.isSome = true := rfl

/-- C7 (amended): saveAsBMP performs no palette validation at all: for the
indexed depths 1, 4, 8 it returns a buffer for every palette, whatever its
length; no PaletteSizeMismatch failure exists. -/
theorem C7_indexed_depths_always_ok (cl : List Nat) (w h e : Nat) (pal : List RgbEntry)
    (he : e = 1 ∨ e = 4 ∨ e = 8) :
    (saveAsBMP cl w h e pal).toOption.isSome = true := by
  rcases he with rfl | rfl | rfl
  · rw [saveAsBMP_1]; rfl
  · rw [saveAsBMP_4]; rfl
  · rw [saveAsBMP_8]; rfl

/-- Witness for C7: a 4-bit encode with an empty palette also succeeds. -/
theorem C7_indexed_depths_always_ok_witness :
    (saveAsBMP [3, 3] 2 1 4 []).toOption.isSome = true :=
  C7_indexed_depths_always_ok [3, 3] 2 1 4 [] (Or.inr (Or.inl rfl))

/-- C4 counterexample: a fully valid 1x1 24-bit input (white pixel, empty
palette as required) produces no buffer at all: the 24-bit encoder throws
its const-assignment TypeError, refuting the claimed output length for
every valid input. -/
theorem C4_no_output_at_24_cx :
    saveAsBMP [16777215] 1 1 24 [] = Except.error JsError.constAssign := rfl

/-- C4 (amended): for the depths whose encoder completes (1, 4, 8), the
returned buffer has length exactly 54 + paletteByteSize + rowSize*height,
with rowSize = rowSizeBase + deltaBase the padded row size; at depths 16
and 24 the encoder raises before returning, so no output exists. -/
theorem C4_output_length (cl : List Nat) (w h e : Nat) (pal : List RgbEntry) (buf : U8)
    (hw : 0 < w) (hh : 0 < h) (hlen : cl.length = w * h)
    (he : e = 1 ∨ e = 4 ∨ e = 8)
    (hpal : pal.length * PALETTE_BYTE_SIZE = getPaletteBytes e)
    (hok : saveAsBMP cl w h e pal = Except.ok buf) :
    buf.size = 54 + getPaletteBytes e +
      ((getPixelBytes w h e).rowSizeBase + (getPixelBytes w h e).deltaBase) * h := by
  rw [saveAsBMP_size cl w h e pal buf he hok, getPixelBytes_pixelSize]

/-- Witness for C4: the spec scenario 2x1 at depth 1 with a 2-entry palette
gives a 66-byte file (54 + 8 + one padded 4-byte row). -/
theorem C4_output_length_witness :
    (okBytes (saveAsBMP [1, 0] 2 1 1 [⟨0, 0, 0⟩, ⟨255, 255, 255⟩])).size =
      54 + getPaletteBytes 1 +
      ((getPixelBytes 2 1 1).rowSizeBase + (getPixelBytes 2 1 1).deltaBase) * 1 :=
  C4_output_length [1, 0] 2 1 1 [⟨0, 0, 0⟩, ⟨255, 255, 255⟩]
    (okBytes (saveAsBMP [1, 0] 2 1 1 [⟨0, 0, 0⟩, ⟨255, 255, 255⟩]))
    (by decide) (by decide) (by decide) (Or.inl rfl) (by decide) rfl

/-- C8 (confirmed): for the palette-requiring depths with a palette of the
required cardinality, entry i of the palette is serialized at byte offsets
54+4i .. 54+4i+3 as R, G, B, 0, and the pixel encoder (which starts at
54 + 4*palette.length) never overwrites it. -/
theorem C8_palette_layout (cl : List Nat) (w h e : Nat) (pal : List RgbEntry) (buf : U8)
    (i : Nat) (he : e = 1 ∨ e = 4 ∨ e = 8)
    (hpal : pal.length * PALETTE_BYTE_SIZE = getPaletteBytes e)
    (hok : saveAsBMP cl w h e pal = Except.ok buf)
    (hi : i < pal.length) :
    buf.get (54 + 4 * i) = (pal.getD i ⟨0, 0, 0⟩).R % 256 ∧
    buf.get (54 + 4 * i + 1) = (pal.getD i ⟨0, 0, 0⟩).G % 256 ∧
    buf.get (54 + 4 * i + 2) = (pal.getD i ⟨0, 0, 0⟩).B % 256 ∧
    buf.get (54 + 4 * i + 3) = 0 := by
  have hb := saveAsBMP_get_lt_pal cl w h e pal buf he hok
  have hpos : pal.length * PALETTE_BYTE_SIZE > 0 := by
    rcases he with rfl | rfl | rfl <;>
      (rw [hpal]; simp [getPaletteBytes, PALETTE_BYTE_SIZE])
  have hsz : 54 + 4 * pal.length ≤ (createHeader w h e).bytes.size := by
    rw [createHeader_size54]
    have h4 : 4 * pal.length ≤ getPaletteBytes e := by
      rw [← hpal]
      simp only [PALETTE_BYTE_SIZE]
      omega
    omega
  obtain ⟨hR, hG, hB, h0⟩ := fillPalette_get_at (createHeader w h e).bytes pal i hi hsz
  refine ⟨?_, ?_, ?_, ?_⟩
  · rw [hb (54 + 4 * i) (by simp only [PALETTE_BYTE_SIZE]; omega), if_pos hpos, hR]
  · rw [hb (54 + 4 * i + 1) (by simp only [PALETTE_BYTE_SIZE]; omega), if_pos hpos, hG]
  · rw [hb (54 + 4 * i + 2) (by simp only [PALETTE_BYTE_SIZE]; omega), if_pos hpos, hB]
  · rw [hb (54 + 4 * i + 3) (by simp only [PALETTE_BYTE_SIZE]; omega), if_pos hpos, h0]

/-- Witness for C8: 1-bit image, palette entries (9,8,7) and (1,2,3); entry 1
sits at offsets 58..61. -/
theorem C8_palette_layout_witness :
    (okBytes (saveAsBMP [1, 1, 1, 1, 1, 1, 1, 1] 8 1 1 [⟨9, 8, 7⟩, ⟨1, 2, 3⟩])).get (54 + 4 * 1) =
      (([⟨9, 8, 7⟩, ⟨1, 2, 3⟩] : List RgbEntry).getD 1 ⟨0, 0, 0⟩).R % 256 ∧
    (okBytes (saveAsBMP [1, 1, 1, 1, 1, 1, 1, 1] 8 1 1 [⟨9, 8, 7⟩, ⟨1, 2, 3⟩])).get (54 + 4 * 1 + 1) =
      (([⟨9, 8, 7⟩, ⟨1, 2, 3⟩] : List RgbEntry).getD 1 ⟨0, 0, 0⟩).G % 256 ∧
    (okBytes (saveAsBMP [1, 1, 1, 1, 1, 1, 1, 1] 8 1 1 [⟨9, 8, 7⟩, ⟨1, 2, 3⟩])).get (54 + 4 * 1 + 2) =
      (([⟨9, 8, 7⟩, ⟨1, 2, 3⟩] : List RgbEntry).getD 1 ⟨0, 0, 0⟩).B % 256 ∧
    (okBytes (saveAsBMP [1, 1, 1, 1, 1, 1, 1, 1] 8 1 1 [⟨9, 8, 7⟩, ⟨1, 2, 3⟩])).get (54 + 4 * 1 + 3) = 0 :=
  C8_palette_layout [1, 1, 1, 1, 1, 1, 1, 1] 8 1 1 [⟨9, 8, 7⟩, ⟨1, 2, 3⟩]
    (okBytes (saveAsBMP [1, 1, 1, 1, 1, 1, 1, 1] 8 1 1 [⟨9, 8, 7⟩, ⟨1, 2, 3⟩]))
    1 (Or.inl rfl) (by decide) rfl (by decide)

/-- C5 (confirmed): whenever saveAsBMP returns a buffer, it starts with the
signature bytes 0x42 0x4D and the little-endian fields at the fixed offsets
decode to the documented values: file size at 2, pixel-data offset
(54 + palette bytes) at 10, DIB header size 40 at 14, width at 18, height
at 22, color planes 1 at 26, the input depth at 28, compression 0 at 30 and
the resolution constant 7874 at 38 and 42. The int32 bounds reflect the JS
shift semantics of split2bytes (values below 2^31 split exactly). At depths
16 and 24 no buffer is returned (claim C10), so the statement is about the
depths that produce one; the header builder writes the same bytes in every
case. -/
theorem C5_header_fields (cl : List Nat) (w h e : Nat) (pal : List RgbEntry) (buf : U8)
    (hw : 0 < w) (hh : 0 < h)
    (he : e = 1 ∨ e = 4 ∨ e = 8 ∨ e = 16 ∨ e = 24)
    (hw31 : w < 2147483648) (hh31 : h < 2147483648)
    (hfs : 54 + getPaletteBytes e + (getPixelBytes w h e).pixelSize < 2147483648)
    (hok : saveAsBMP cl w h e pal = Except.ok buf) :
    buf.get 0 = 66 ∧ buf.get 1 = 77 ∧
    readLE4 buf 2 = 54 + getPaletteBytes e + (getPixelBytes w h e).pixelSize ∧
    readLE4 buf 10 = 54 + getPaletteBytes e ∧
    readLE4 buf 14 = 40 ∧
    readLE4 buf 18 = w ∧
    readLE4 buf 22 = h ∧
    readLE2 buf 26 = 1 ∧
    readLE2 buf 28 = e ∧
    readLE4 buf 30 = 0 ∧
    readLE4 buf 38 = 7874 ∧
    readLE4 buf 42 = 7874 := by
  have he3 : e = 1 ∨ e = 4 ∨ e = 8 := by
    rcases he with rfl | rfl | rfl | rfl | rfl
    · exact Or.inl rfl
    · exact Or.inr (Or.inl rfl)
    · exact Or.inr (Or.inr rfl)
    · rw [saveAsBMP_16] at hok
      exact absurd hok (by simp)
    · rw [saveAsBMP_default cl w h 24 pal (by decide) (by decide) (by decide) (by decide)] at hok
      exact absurd hok (by simp)
  have hdr := saveAsBMP_header_preserved cl w h e pal buf he3 hok
  have he256 : e < 256 := by rcases he3 with rfl | rfl | rfl <;> decide
  obtain ⟨s0, s1⟩ := createHeader_sig w h e
  obtain ⟨f0, f1, f2, f3⟩ := createHeader_fileSize_bytes w h e
  obtain ⟨o0, o1, o2, o3⟩ := createHeader_dataOffset_bytes w h e
  obtain ⟨d0, d1, d2, d3⟩ := createHeader_dib w h e
  obtain ⟨x0, x1, x2, x3⟩ := createHeader_width_bytes w h e
  obtain ⟨y0, y1, y2, y3⟩ := createHeader_height_bytes w h e
  obtain ⟨p0, p1⟩ := createHeader_planes w h e
  obtain ⟨q0, q1⟩ := createHeader_bpp w h e
  obtain ⟨c0, c1, c2, c3⟩ := createHeader_compression w h e
  obtain ⟨r0, r1, r2, r3, r4, r5, r6, r7⟩ := createHeader_resolution w h e
  have hfs2 : FILE_HEADER_SIZE + IMG_HEADER_SIZE + getPaletteBytes e +
      (getPixelBytes w h e).pixelSize < 2147483648 := by
    simp only [FILE_HEADER_SIZE, IMG_HEADER_SIZE]
    omega
  have hhs2 : FILE_HEADER_SIZE + IMG_HEADER_SIZE + getPaletteBytes e < 2147483648 := by
    simp only [FILE_HEADER_SIZE, IMG_HEADER_SIZE]
    omega
  refine ⟨?_, ?_, ?_, ?_, ?_, ?_, ?_, ?_, ?_, ?_, ?_, ?_⟩
  · rw [hdr 0 (by omega), s0]
  · rw [hdr 1 (by omega), s1]
  · simp only [readLE4, Nat.reduceAdd]
    rw [hdr 2 (by omega), hdr 3 (by omega), hdr 4 (by omega), hdr 5 (by omega), f0, f1, f2, f3,
      Nat.mod_eq_of_lt (split2bytes_b0_lt _), Nat.mod_eq_of_lt (split2bytes_b1_lt _),
      Nat.mod_eq_of_lt (split2bytes_b2_lt _), Nat.mod_eq_of_lt (split2bytes_b3_lt _),
      split2bytes_decode _ hfs2]
    simp only [FILE_HEADER_SIZE, IMG_HEADER_SIZE]
  · simp only [readLE4, Nat.reduceAdd]
    rw [hdr 10 (by omega), hdr 11 (by omega), hdr 12 (by omega), hdr 13 (by omega),
      o0, o1, o2, o3,
      Nat.mod_eq_of_lt (split2bytes_b0_lt _), Nat.mod_eq_of_lt (split2bytes_b1_lt _),
      Nat.mod_eq_of_lt (split2bytes_b2_lt _), Nat.mod_eq_of_lt (split2bytes_b3_lt _),
      split2bytes_decode _ hhs2]
    simp only [FILE_HEADER_SIZE, IMG_HEADER_SIZE]
  · simp only [readLE4, Nat.reduceAdd]
    rw [hdr 14 (by omega), hdr 15 (by omega), hdr 16 (by omega), hdr 17 (by omega),
      d0, d1, d2, d3]
  · simp only [readLE4, Nat.reduceAdd]
    rw [hdr 18 (by omega), hdr 19 (by omega), hdr 20 (by omega), hdr 21 (by omega),
      x0, x1, x2, x3,
      Nat.mod_eq_of_lt (split2bytes_b0_lt _), Nat.mod_eq_of_lt (split2bytes_b1_lt _),
      Nat.mod_eq_of_lt (split2bytes_b2_lt _), Nat.mod_eq_of_lt (split2bytes_b3_lt _),
      split2bytes_decode _ hw31]
  · simp only [readLE4, Nat.reduceAdd]
    rw [hdr 22 (by omega), hdr 23 (by omega), hdr 24 (by omega), hdr 25 (by omega),
      y0, y1, y2, y3,
      Nat.mod_eq_of_lt (split2bytes_b0_lt _), Nat.mod_eq_of_lt (split2bytes_b1_lt _),
      Nat.mod_eq_of_lt (split2bytes_b2_lt _), Nat.mod_eq_of_lt (split2bytes_b3_lt _),
      split2bytes_decode _ hh31]
  · simp only [readLE2, Nat.reduceAdd]
    rw [hdr 26 (by omega), hdr 27 (by omega), p0, p1]
  · simp only [readLE2, Nat.reduceAdd]
    rw [hdr 28 (by omega), hdr 29 (by omega), q0, q1]
    omega
  · simp only [readLE4, Nat.reduceAdd]
    rw [hdr 30 (by omega), hdr 31 (by omega), hdr 32 (by omega), hdr 33 (by omega),
      c0, c1, c2, c3]
  · simp only [readLE4, Nat.reduceAdd]
    rw [hdr 38 (by omega), hdr 39 (by omega), hdr 40 (by omega), hdr 41 (by omega),
      r0, r1, r2, r3,
      Nat.mod_eq_of_lt (split2bytes_b0_lt _), Nat.mod_eq_of_lt (split2bytes_b1_lt _),
      Nat.mod_eq_of_lt (split2bytes_b2_lt _), Nat.mod_eq_of_lt (split2bytes_b3_lt _),
      split2bytes_decode _ (by decide)]
    decide
  · simp only [readLE4, Nat.reduceAdd]
    rw [hdr 42 (by omega), hdr 43 (by omega), hdr 44 (by omega), hdr 45 (by omega),
      r4, r5, r6, r7,
      Nat.mod_eq_of_lt (split2bytes_b0_lt _), Nat.mod_eq_of_lt (split2bytes_b1_lt _),
      Nat.mod_eq_of_lt (split2bytes_b2_lt _), Nat.mod_eq_of_lt (split2bytes_b3_lt _),
      split2bytes_decode _ (by decide)]
    decide

/-- Witness for C5: an 8x1 monochrome image with its 2-entry palette. -/
theorem C5_header_fields_witness :
    (okBytes (saveAsBMP [1, 1, 0, 0, 1, 0, 1, 0] 8 1 1 [⟨0, 0, 0⟩, ⟨255, 255, 255⟩])).get 0 = 66 ∧ (okBytes (saveAsBMP [1, 1, 0, 0, 1, 0, 1, 0] 8 1 1 [⟨0, 0, 0⟩, ⟨255, 255, 255⟩])).get 1 = 77 ∧
    readLE4 (okBytes (saveAsBMP [1, 1, 0, 0, 1, 0, 1, 0] 8 1 1 [⟨0, 0, 0⟩, ⟨255, 255, 255⟩])) 2 = 54 + getPaletteBytes 1 + (getPixelBytes 8 1 1).pixelSize ∧
    readLE4 (okBytes (saveAsBMP [1, 1, 0, 0, 1, 0, 1, 0] 8 1 1 [⟨0, 0, 0⟩, ⟨255, 255, 255⟩])) 10 = 54 + getPaletteBytes 1 ∧
    readLE4 (okBytes (saveAsBMP [1, 1, 0, 0, 1, 0, 1, 0] 8 1 1 [⟨0, 0, 0⟩, ⟨255, 255, 255⟩])) 14 = 40 ∧
    readLE4 (okBytes (saveAsBMP [1, 1, 0, 0, 1, 0, 1, 0] 8 1 1 [⟨0, 0, 0⟩, ⟨255, 255, 255⟩])) 18 = 8 ∧
    readLE4 (okBytes (saveAsBMP [1, 1, 0, 0, 1, 0, 1, 0] 8 1 1 [⟨0, 0, 0⟩, ⟨255, 255, 255⟩])) 22 = 1 ∧
    readLE2 (okBytes (saveAsBMP [1, 1, 0, 0, 1, 0, 1, 0] 8 1 1 [⟨0, 0, 0⟩, ⟨255, 255, 255⟩])) 26 = 1 ∧
    readLE2 (okBytes (saveAsBMP [1, 1, 0, 0, 1, 0, 1, 0] 8 1 1 [⟨0, 0, 0⟩, ⟨255, 255, 255⟩])) 28 = 1 ∧
    readLE4 (okBytes (saveAsBMP [1, 1, 0, 0, 1, 0, 1, 0] 8 1 1 [⟨0, 0, 0⟩, ⟨255, 255, 255⟩])) 30 = 0 ∧
    readLE4 (okBytes (saveAsBMP [1, 1, 0, 0, 1, 0, 1, 0] 8 1 1 [⟨0, 0, 0⟩, ⟨255, 255, 255⟩])) 38 = 7874 ∧
    readLE4 (okBytes (saveAsBMP [1, 1, 0, 0, 1, 0, 1, 0] 8 1 1 [⟨0, 0, 0⟩, ⟨255, 255, 255⟩])) 42 = 7874 :=
  C5_header_fields [1, 1, 0, 0, 1, 0, 1, 0] 8 1 1 [⟨0, 0, 0⟩, ⟨255, 255, 255⟩]
    (okBytes (saveAsBMP [1, 1, 0, 0, 1, 0, 1, 0] 8 1 1 [⟨0, 0, 0⟩, ⟨255, 255, 255⟩]))
    (by decide) (by decide) (Or.inl rfl) (by decide) (by decide) (by decide) rfl

set_option maxRecDepth 100000 in
/-- C2 counterexample: 4x1 monochrome image, all four pixels 1, 2-entry
palette. The claim requires the row byte to have pixel 0 in the MSB and the
unused low 4 bits forced to 0 (value 240). Instead the code computes
rowSizeBase round(4/8) = 1, starts the row at index pointSize - 8 = -4, reads
the out-of-range indices as 0 and packs the four pixels into the LOW nibble:
the byte at offset 62 is 15, whose unused low-order bits are all 1. -/
theorem C2_unmasked_low_bits_cx :
    (okBytes (saveAsBMP [1, 1, 1, 1] 4 1 1 [⟨0, 0, 0⟩, ⟨255, 255, 255⟩])).get 62 = 15 ∧
    15 % 16 ≠ 0 :=
  ⟨rfl, by decide⟩

/-- C2 (amended): when the width is a multiple of 8 (width = 8*rs, so the
rounded row size rs is exact), each output byte of fillColorData_1 packs 8
pixels of one source row with pixel 0 of the group in the most significant
bit and pixel 7 in the least significant bit; rows enter the file bottom-up.
When the width is not a multiple of 8 the encoder misaligns its reads and
does not mask the unused low-order bits (see the counterexample). -/
theorem C2_msb_first_packing (cl : List Nat) (rs d ps h : Nat) (b : U8) (r j : Nat)
    (hrs : 0 < rs) (hlen : cl.length = 8 * (rs * h)) (hr : r < h) (hj : j < rs)
    (hsz : 54 + ps + r * (rs + d) + j < b.size)
    (hbits : ∀ v ∈ cl, v < 2) :
    (fillColorData_1 b cl ps rs d).get (54 + ps + r * (rs + d) + j) =
      cl.getD ((h - 1 - r) * (8 * rs) + 8 * j) 0 * 128 +
      cl.getD ((h - 1 - r) * (8 * rs) + 8 * j + 1) 0 * 64 +
      cl.getD ((h - 1 - r) * (8 * rs) + 8 * j + 2) 0 * 32 +
      cl.getD ((h - 1 - r) * (8 * rs) + 8 * j + 3) 0 * 16 +
      cl.getD ((h - 1 - r) * (8 * rs) + 8 * j + 4) 0 * 8 +
      cl.getD ((h - 1 - r) * (8 * rs) + 8 * j + 5) 0 * 4 +
      cl.getD ((h - 1 - r) * (8 * rs) + 8 * j + 6) 0 * 2 +
      cl.getD ((h - 1 - r) * (8 * rs) + 8 * j + 7) 0 := by
  have hlt : (h - 1 - r) * (8 * rs) + 8 * j + 7 < cl.length := by
    obtain ⟨a, rfl⟩ : ∃ a, h = a + 1 + r := ⟨h - 1 - r, by omega⟩
    rw [hlen, show a + 1 + r - 1 - r = a from by omega,
      show 8 * (rs * (a + 1 + r)) = a * (8 * rs) + 8 * rs + r * (8 * rs) from by ring]
    omega
  have h0 := getD_lt cl ((h - 1 - r) * (8 * rs) + 8 * j) 2 (by omega) hbits
  have h1 := getD_lt cl ((h - 1 - r) * (8 * rs) + 8 * j + 1) 2 (by omega) hbits
  have h2 := getD_lt cl ((h - 1 - r) * (8 * rs) + 8 * j + 2) 2 (by omega) hbits
  have h3 := getD_lt cl ((h - 1 - r) * (8 * rs) + 8 * j + 3) 2 (by omega) hbits
  have h4 := getD_lt cl ((h - 1 - r) * (8 * rs) + 8 * j + 4) 2 (by omega) hbits
  have h5 := getD_lt cl ((h - 1 - r) * (8 * rs) + 8 * j + 5) 2 (by omega) hbits
  have h6 := getD_lt cl ((h - 1 - r) * (8 * rs) + 8 * j + 6) 2 (by omega) hbits
  have h7 := getD_lt cl ((h - 1 - r) * (8 * rs) + 8 * j + 7) 2 (by omega) hbits
  rw [fill1_get cl rs d ps h b hrs hlen r j hr hj hsz,
    packByte1_eval cl _ ((h - 1 - r) * (8 * rs) + 8 * j) rfl hlt,
    Nat.mod_eq_of_lt (by omega)]
  ring

/-- Witness for C2: one 8-pixel row 10100001 packs to 161 at offset 62. -/
theorem C2_msb_first_packing_witness :
    (fillColorData_1 (U8.mk0 70) [1, 0, 1, 0, 0, 0, 0, 1] 8 1 3).get (54 + 8 + 0 * (1 + 3) + 0) =
      ([1, 0, 1, 0, 0, 0, 0, 1] : List Nat).getD ((1 - 1 - 0) * (8 * 1) + 8 * 0) 0 * 128 +
      ([1, 0, 1, 0, 0, 0, 0, 1] : List Nat).getD ((1 - 1 - 0) * (8 * 1) + 8 * 0 + 1) 0 * 64 +
      ([1, 0, 1, 0, 0, 0, 0, 1] : List Nat).getD ((1 - 1 - 0) * (8 * 1) + 8 * 0 + 2) 0 * 32 +
      ([1, 0, 1, 0, 0, 0, 0, 1] : List Nat).getD ((1 - 1 - 0) * (8 * 1) + 8 * 0 + 3) 0 * 16 +
      ([1, 0, 1, 0, 0, 0, 0, 1] : List Nat).getD ((1 - 1 - 0) * (8 * 1) + 8 * 0 + 4) 0 * 8 +
      ([1, 0, 1, 0, 0, 0, 0, 1] : List Nat).getD ((1 - 1 - 0) * (8 * 1) + 8 * 0 + 5) 0 * 4 +
      ([1, 0, 1, 0, 0, 0, 0, 1] : List Nat).getD ((1 - 1 - 0) * (8 * 1) + 8 * 0 + 6) 0 * 2 +
      ([1, 0, 1, 0, 0, 0, 0, 1] : List Nat).getD ((1 - 1 - 0) * (8 * 1) + 8 * 0 + 7) 0 :=
  C2_msb_first_packing [1, 0, 1, 0, 0, 0, 0, 1] 1 3 8 1 (U8.mk0 70) 0 0 (by decide) (by decide)
    (by decide) (by decide) (by decide) (by decide)

/-- C1 counterexample: at the supported depth 16 no pixel row is ever
written bottom-up (or at all): the encoder throws its const-assignment
TypeError on entry for the 1x2 image with pixels 1 and 2, so the claimed
traversal contract fails for depths 16 and 24. -/
theorem C1_depth16_no_rows_cx :
    saveAsBMP [1, 2] 1 2 16 [] = Except.error JsError.constAssign := rfl

/-- C1 (amended): for the depths whose encoder completes (1, 4, 8), with the
width a multiple of the pixels-per-byte group (8 for 1-bit, 2 for 4-bit,
any width for 8-bit) and in-range pixel values, the pixel-data region holds
the image rows bottom-up: file row r at offset 54 + paletteBytes + r*rowSize
is the packed encoding (specRowByte) of logical row h-1-r, pixels left to
right, and the rowPadding bytes after each row are zero. For widths not a
multiple of the group the 1- and 4-bit encoders misalign their rows (claim
C2), and for depths 16 and 24 the encoder throws (claims C4, C10). -/
theorem C1_bottom_up_rows (cl : List Nat) (w h e : Nat) (pal : List RgbEntry) (buf : U8)
    (r j t : Nat)
    (hw : 0 < w) (hh : 0 < h) (hlen : cl.length = w * h)
    (he : e = 1 ∨ e = 4 ∨ e = 8)
    (hpal : pal.length * PALETTE_BYTE_SIZE = getPaletteBytes e)
    (hvals : ∀ v ∈ cl, v < 2 ^ e)
    (halign1 : e = 1 → w % 8 = 0) (halign4 : e = 4 → w % 2 = 0)
    (hok : saveAsBMP cl w h e pal = Except.ok buf)
    (hr : r < h) (hj : j < (getPixelBytes w h e).rowSizeBase) :
    buf.get (54 + getPaletteBytes e +
        r * ((getPixelBytes w h e).rowSizeBase + (getPixelBytes w h e).deltaBase) + j) =
      specRowByte e cl w h r j ∧
    (t < (getPixelBytes w h e).deltaBase →
      buf.get (54 + getPaletteBytes e +
          r * ((getPixelBytes w h e).rowSizeBase + (getPixelBytes w h e).deltaBase) +
          ((getPixelBytes w h e).rowSizeBase + t)) = 0) := by
  rcases he with rfl | rfl | rfl
  · -- depth 1
    have hw8 : w % 8 = 0 := halign1 rfl
    obtain ⟨m, rfl⟩ : ∃ m, w = 8 * m := ⟨w / 8, by omega⟩
    have hm : 0 < m := by omega
    have hv2 : ∀ v ∈ cl, v < 2 := by simpa using hvals
    have hlen1 : cl.length = 8 * (m * h) := by rw [hlen]; ring
    rw [saveAsBMP_1] at hok
    injection hok with hb
    subst hb
    rw [createHeader_rowSizeBase, createHeader_deltaBase, getPixelBytes_1,
      show (8 * m + 4) / 8 = m from by omega, ← hpal]
    rw [getPixelBytes_1, show (8 * m + 4) / 8 = m from by omega] at hj
    have hsz1 : 54 + pal.length * PALETTE_BYTE_SIZE +
        r * (m + (getPixelBytes (8 * m) h 1).deltaBase) + j <
        (if pal.length * PALETTE_BYTE_SIZE > 0
          then fillPalette (createHeader (8 * m) h 1).bytes pal
          else (createHeader (8 * m) h 1).bytes).size := by
      rw [saveAsBMP_buf_size, getPixelBytes_pixelSize, getPixelBytes_1,
        show (8 * m + 4) / 8 = m from by omega, hpal]
      exact rowpos_lt _ _ _ _ _ _ hr (by omega)
    constructor
    · rw [fill1_get cl m (getPixelBytes (8 * m) h 1).deltaBase
        (pal.length * PALETTE_BYTE_SIZE) h _ hm hlen1 r j hr hj hsz1]
      have hlt : (h - 1 - r) * (8 * m) + 8 * j + 7 < cl.length := by
        obtain ⟨a, rfl⟩ : ∃ a, h = a + 1 + r := ⟨h - 1 - r, by omega⟩
        rw [hlen1, show a + 1 + r - 1 - r = a from by omega,
          show 8 * (m * (a + 1 + r)) = a * (8 * m) + 8 * m + r * (8 * m) from by ring]
        omega
      have h0 := getD_lt cl ((h - 1 - r) * (8 * m) + 8 * j) 2 (by omega) hv2
      have h1 := getD_lt cl ((h - 1 - r) * (8 * m) + 8 * j + 1) 2 (by omega) hv2
      have h2 := getD_lt cl ((h - 1 - r) * (8 * m) + 8 * j + 2) 2 (by omega) hv2
      have h3 := getD_lt cl ((h - 1 - r) * (8 * m) + 8 * j + 3) 2 (by omega) hv2
      have h4 := getD_lt cl ((h - 1 - r) * (8 * m) + 8 * j + 4) 2 (by omega) hv2
      have h5 := getD_lt cl ((h - 1 - r) * (8 * m) + 8 * j + 5) 2 (by omega) hv2
      have h6 := getD_lt cl ((h - 1 - r) * (8 * m) + 8 * j + 6) 2 (by omega) hv2
      have h7 := getD_lt cl ((h - 1 - r) * (8 * m) + 8 * j + 7) 2 (by omega) hv2
      rw [packByte1_eval cl _ ((h - 1 - r) * (8 * m) + 8 * j) rfl hlt,
        Nat.mod_eq_of_lt (by omega)]
      have hspec : specRowByte 1 cl (8 * m) h r j =
          cl.getD ((h - 1 - r) * (8 * m) + 8 * j) 0 * 128 +
          cl.getD ((h - 1 - r) * (8 * m) + 8 * j + 1) 0 * 64 +
          cl.getD ((h - 1 - r) * (8 * m) + 8 * j + 2) 0 * 32 +
          cl.getD ((h - 1 - r) * (8 * m) + 8 * j + 3) 0 * 16 +
          cl.getD ((h - 1 - r) * (8 * m) + 8 * j + 4) 0 * 8 +
          cl.getD ((h - 1 - r) * (8 * m) + 8 * j + 5) 0 * 4 +
          cl.getD ((h - 1 - r) * (8 * m) + 8 * j + 6) 0 * 2 +
          cl.getD ((h - 1 - r) * (8 * m) + 8 * j + 7) 0 := by
        simp [specRowByte]
      rw [hspec]
      ring
    · intro ht
      rw [fill1_pad cl m (getPixelBytes (8 * m) h 1).deltaBase
        (pal.length * PALETTE_BYTE_SIZE) h _ hm hlen1 r (m + t) hr (by omega) (by omega)]
      exact saveAsBMP_base_zero (8 * m) h 1 pal _ (by simp only [PALETTE_BYTE_SIZE]; omega)
  · -- depth 4
    have hw2 : w % 2 = 0 := halign4 rfl
    obtain ⟨m, rfl⟩ : ∃ m, w = 2 * m := ⟨w / 2, by omega⟩
    have hm : 0 < m := by omega
    have hv16 : ∀ v ∈ cl, v < 16 := by simpa using hvals
    have hlen1 : cl.length = 2 * (m * h) := by rw [hlen]; ring
    rw [saveAsBMP_4] at hok
    injection hok with hb
    subst hb
    rw [createHeader_rowSizeBase, createHeader_deltaBase, getPixelBytes_4,
      show (2 * m + 1) / 2 = m from by omega, ← hpal]
    rw [getPixelBytes_4, show (2 * m + 1) / 2 = m from by omega] at hj
    have hsz1 : 54 + pal.length * PALETTE_BYTE_SIZE +
        r * (m + (getPixelBytes (2 * m) h 4).deltaBase) + j <
        (if pal.length * PALETTE_BYTE_SIZE > 0
          then fillPalette (createHeader (2 * m) h 4).bytes pal
          else (createHeader (2 * m) h 4).bytes).size := by
      rw [saveAsBMP_buf_size, getPixelBytes_pixelSize, getPixelBytes_4,
        show (2 * m + 1) / 2 = m from by omega, hpal]
      exact rowpos_lt _ _ _ _ _ _ hr (by omega)
    constructor
    · rw [fill4_get cl m (getPixelBytes (2 * m) h 4).deltaBase
        (pal.length * PALETTE_BYTE_SIZE) h _ hm hlen1 r j hr hj hsz1]
      have hv0 := getD_lt cl ((h - 1 - r) * (2 * m) + 2 * j) 16 (by omega) hv16
      have hv1 := getD_lt cl ((h - 1 - r) * (2 * m) + 2 * j + 1) 16 (by omega) hv16
      rw [packByte4_eval cl _ ((h - 1 - r) * (2 * m) + 2 * j) rfl hv0 hv1,
        Nat.mod_eq_of_lt (by omega)]
      have hspec : specRowByte 4 cl (2 * m) h r j =
          cl.getD ((h - 1 - r) * (2 * m) + 2 * j) 0 * 16 +
          cl.getD ((h - 1 - r) * (2 * m) + 2 * j + 1) 0 := by
        simp [specRowByte]
      rw [hspec]
      ring
    · intro ht
      rw [fill4_pad cl m (getPixelBytes (2 * m) h 4).deltaBase
        (pal.length * PALETTE_BYTE_SIZE) h _ hm hlen1 r (m + t) hr (by omega) (by omega)]
      exact saveAsBMP_base_zero (2 * m) h 4 pal _ (by simp only [PALETTE_BYTE_SIZE]; omega)
  · -- depth 8
    have hv256 : ∀ v ∈ cl, v < 256 := by simpa using hvals
    rw [saveAsBMP_8] at hok
    injection hok with hb
    subst hb
    rw [createHeader_rowSizeBase, createHeader_deltaBase, getPixelBytes_8, ← hpal]
    rw [getPixelBytes_8] at hj
    have hsz1 : 54 + pal.length * PALETTE_BYTE_SIZE +
        r * (w + (getPixelBytes w h 8).deltaBase) + j <
        (if pal.length * PALETTE_BYTE_SIZE > 0
          then fillPalette (createHeader w h 8).bytes pal
          else (createHeader w h 8).bytes).size := by
      rw [saveAsBMP_buf_size, getPixelBytes_pixelSize, getPixelBytes_8, hpal]
      exact rowpos_lt _ _ _ _ _ _ hr (by omega)
    constructor
    · rw [fill8_get cl w (getPixelBytes w h 8).deltaBase
        (pal.length * PALETTE_BYTE_SIZE) h _ hw hlen r j hr hj hsz1,
        jsGetD_eval cl _ ((h - 1 - r) * w + j) rfl,
        Nat.mod_eq_of_lt (getD_lt cl _ 256 (by omega) hv256)]
      simp [specRowByte]
    · intro ht
      rw [fill8_pad cl w (getPixelBytes w h 8).deltaBase
        (pal.length * PALETTE_BYTE_SIZE) h _ hw hlen r (w + t) hr (by omega) (by omega)]
      exact saveAsBMP_base_zero w h 8 pal _ (by simp only [PALETTE_BYTE_SIZE]; omega)

/-- Witness for C1: 8x2 monochrome image; file row 0 (offset 62) is the
encoding of logical row 1, and the first padding byte after it is zero. -/
theorem C1_bottom_up_rows_witness :
    ((okBytes (saveAsBMP [1, 0, 1, 0, 0, 0, 0, 1, 0, 1, 1, 1, 1, 1, 1, 0] 8 2 1 [⟨1, 2, 3⟩, ⟨9, 8, 7⟩])).get (54 + getPaletteBytes 1 +
        0 * ((getPixelBytes 8 2 1).rowSizeBase + (getPixelBytes 8 2 1).deltaBase) + 0) =
      specRowByte 1 [1, 0, 1, 0, 0, 0, 0, 1, 0, 1, 1, 1, 1, 1, 1, 0] 8 2 0 0 ∧
    (0 < (getPixelBytes 8 2 1).deltaBase →
      (okBytes (saveAsBMP [1, 0, 1, 0, 0, 0, 0, 1, 0, 1, 1, 1, 1, 1, 1, 0] 8 2 1 [⟨1, 2, 3⟩, ⟨9, 8, 7⟩])).get (54 + getPaletteBytes 1 +
          0 * ((getPixelBytes 8 2 1).rowSizeBase + (getPixelBytes 8 2 1).deltaBase) +
          ((getPixelBytes 8 2 1).rowSizeBase + 0)) = 0)) :=
  C1_bottom_up_rows [1, 0, 1, 0, 0, 0, 0, 1, 0, 1, 1, 1, 1, 1, 1, 0] 8 2 1 [⟨1, 2, 3⟩, ⟨9, 8, 7⟩]
    (okBytes (saveAsBMP [1, 0, 1, 0, 0, 0, 0, 1, 0, 1, 1, 1, 1, 1, 1, 0] 8 2 1 [⟨1, 2, 3⟩, ⟨9, 8, 7⟩])) 0 0 0
    (by decide) (by decide) (by decide) (Or.inl rfl) (by decide) (by decide)
    (by decide) (by decide) rfl (by decide) (by decide)
